import Mathlib

/-!
# BladeRF1 output device: settings reconciliation

A shallow embedding of `Bladerf1Output::applySettings`
(`plugins/samplesink/bladerf1output/bladerf1output.cpp`, lines 301-545) and of the
object state it reads and writes.  Stateful code is rendered as explicit state passing:
`applySettings` maps the device object, the requested snapshot and the force flag to the
new object, the values of its local variables and the ordered trace of the calls it makes.
Hardware return codes are supplied by an arbitrary function of the call.
-/

namespace Bladerf1

/-! ## Data model -/

/-- Modelled from the spec: the settings snapshot `BladeRF1OutputSettings`, whose
declaration (bladerf1outputsettings.h) is not among the sources.  The fields are the ones
`applySettings` reads; integers are unbounded, `m_centerFrequency` is the unsigned 64-bit
frequency and the two expansion-board enumerations are carried by their numeric value. -/
structure BladeRF1OutputSettings where
  m_centerFrequency : Nat
  m_devSampleRate : Int
  m_vga1 : Int
  m_vga2 : Int
  m_bandwidth : Int
  m_log2Interp : Nat
  m_xb200 : Bool
  m_xb200Path : Nat
  m_xb200Filter : Nat
  m_useReverseAPI : Bool
  m_reverseAPIAddress : String
  m_reverseAPIPort : Nat
  m_reverseAPIDeviceIndex : Nat
deriving DecidableEq, Repr

/-- Modelled from the spec: the parameters shared with the buddy device
(`DeviceBladeRF1Params`, declared outside the sources): the hardware handle, `0` being
the null handle, and the expansion-board attached flag. -/
structure DeviceBladeRF1Params where
  m_dev : Nat
  m_xb200Attached : Bool
deriving DecidableEq, Repr

/-- Modelled from the spec: the three constants of `DeviceBladeRF1Shared` that size the
sample FIFO; their declaration is not among the sources, so they are parameters.
`scaleBySeconds x` stands for the C++ expression
`(int) (x * DeviceBladeRF1Shared::m_sampleFifoLengthInSeconds)`. -/
structure DeviceBladeRF1Shared where
  scaleBySeconds : Int → Int
  m_sampleFifoMinSize : Int
  m_sampleFifoMinSize32 : Int

/-- Modelled from the spec: the stream worker `Bladerf1OutputThread` (its class is not
among the sources): whether it is running and the interpolation factor last set on it. -/
structure Bladerf1OutputThread where
  m_running : Bool
  m_log2Interp : Nat
deriving DecidableEq, Repr

/-- States of the buddy's DSP engine (`DSPDeviceSourceEngine::State`). -/
inductive EngineState
  | StNotStarted
  | StIdle
  | StReady
  | StRunning
  | StError
deriving DecidableEq, Repr

/-- Modelled from the spec: a source (Rx) buddy as seen through `DeviceSourceAPI`: its
shared-parameters pointer (`none` is the null pointer) and the state of its engine. -/
structure DeviceSourceAPI where
  buddySharedPtr : Option DeviceBladeRF1Params
  engineState : EngineState
deriving DecidableEq, Repr

/-- The rate/frequency notification `DSPSignalNotification(sampleRate, centerFrequency)`. -/
structure DSPSignalNotification where
  sampleRate : Int
  centerFrequency : Nat
deriving DecidableEq, Repr

/-- Messages of the command protocol. -/
inductive Message
  | MsgConfigureBladerf1 (settings : BladeRF1OutputSettings) (force : Bool)
  | MsgStartStop (startStop : Bool)
deriving DecidableEq, Repr

/-- The object state of `Bladerf1Output`, together with the parts of `m_deviceAPI` the
code consults: the list of source buddies and the device engine's input queue. -/
structure Bladerf1Output where
  m_settings : BladeRF1OutputSettings
  m_dev : Nat
  m_bladerfThread : Option Bladerf1OutputThread
  m_running : Bool
  m_sharedParams : DeviceBladeRF1Params
  m_sampleSourceFifo : Int
  sourceBuddies : List DeviceSourceAPI
  deviceEngineInputMessageQueue : List DSPSignalNotification
  m_inputMessageQueue : List Message
  m_guiMessageQueue : Option (List Message)
deriving DecidableEq, Repr

/-- Calls into the libbladeRF SDK on the TX module, with the argument that varies. -/
inductive HwCall
  | open_bladerf
  | sync_config
  | enable_module (enable : Bool)
  | close
  | set_sample_rate (rate : Int)
  | set_txvga1 (gain : Int)
  | set_txvga2 (gain : Int)
  | expansion_attach (xb200 : Bool)
  | xb200_set_path (path : Nat)
  | xb200_set_filterbank (filter : Nat)
  | set_bandwidth (bandwidth : Int)
  | set_frequency (frequency : Nat)
deriving DecidableEq, Repr

/-- Observable actions of the device object, in the order they are performed.
`log c ok` is the message printed after call `c`: the success text when `ok`, the
failure text otherwise. -/
inductive Event
  | stopWork
  | startWork
  | setLog2Interpolation (log2Interp : Nat)
  | fifoResize (size : Int)
  | hw (c : HwCall)
  | log (c : HwCall) (ok : Bool)
  | webapiReverseSendSettings (keys : List String) (settings : BladeRF1OutputSettings)
      (force : Bool)
  | pushNotification (notif : DSPSignalNotification)
deriving DecidableEq, Repr

/-- What one `applySettings` call leaves behind: the returned boolean, the new object
state, the final values of the locals `reverseAPIKeys` and `forwardChange`, and the trace. -/
structure ApplyResult where
  result : Bool
  dev : Bladerf1Output
  reverseAPIKeys : List String
  forwardChange : Bool
  trace : List Event
deriving DecidableEq, Repr

/-! ## Machine arithmetic -/

/-- Reduction of an integer to the signed 32-bit range (two's complement). -/
def wrapInt32 (x : Int) : Int :=
  (x + 2147483648) % 4294967296 - 2147483648

/-- The `int` expression `1 << n`.  C++ defines it for `n < 31` only, where it is `2 ^ n`;
beyond that the mathematical value is reduced to 32 bits. -/
def shl1 (n : Nat) : Int :=
  wrapInt32 (2 ^ n)

/-- The baseband rate `devSampleRate / (1 << log2Interp)`: `int` division truncates
towards zero. -/
def basebandRate (devSampleRate : Int) (log2Interp : Nat) : Int :=
  Int.tdiv devSampleRate (shl1 log2Interp)

/-! ## The worker thread -/

/-- Worker `stopWork()`: the worker is no longer running afterwards. -/
def Bladerf1OutputThread.stopWork (t : Bladerf1OutputThread) : Bladerf1OutputThread :=
  { t with m_running := false }

/-- Worker `startWork()`: the worker is running afterwards. -/
def Bladerf1OutputThread.startWork (t : Bladerf1OutputThread) : Bladerf1OutputThread :=
  { t with m_running := true }

/-- Worker `setLog2Interpolation(n)`. -/
def Bladerf1OutputThread.setLog2Interpolation (t : Bladerf1OutputThread) (n : Nat) :
    Bladerf1OutputThread :=
  { t with m_log2Interp := n }

/-! ## applySettings, block by block

Every condition below reads `m_settings`, `m_dev` and the `m_bladerfThread` pointer, none
of which is assigned before line 530, so each block is a function of the entry state. -/

/-- The test `(m_settings.x != settings.x) || force` that guards most blocks. -/
def changed {α : Type} [DecidableEq α] (old new : α) (force : Bool) : Bool :=
  decide (old ≠ new) || force

/-- Lines 311-319: the first three names appended to `reverseAPIKeys`. -/
def headKeys (cur settings : BladeRF1OutputSettings) (force : Bool) : List String :=
  (if changed cur.m_centerFrequency settings.m_centerFrequency force
    then ["centerFrequency"] else []) ++
  (if changed cur.m_devSampleRate settings.m_devSampleRate force
    then ["devSampleRate"] else []) ++
  (if changed cur.m_log2Interp settings.m_log2Interp force
    then ["log2Interp"] else [])

/-- Lines 384-489: the six names appended next to the hardware blocks. -/
def tailKeys (cur settings : BladeRF1OutputSettings) (force : Bool) : List String :=
  (if changed cur.m_vga1 settings.m_vga1 force then ["vga1"] else []) ++
  (if changed cur.m_vga2 settings.m_vga2 force then ["vga2"] else []) ++
  (if changed cur.m_xb200 settings.m_xb200 force then ["xb200"] else []) ++
  (if changed cur.m_xb200Path settings.m_xb200Path force then ["xb200Path"] else []) ++
  (if changed cur.m_xb200Filter settings.m_xb200Filter force then ["xb200Filter"] else []) ++
  (if changed cur.m_bandwidth settings.m_bandwidth force then ["bandwidth"] else [])

/-- Lines 321-325: the local `suspendOwnThread`. -/
def suspendOwnThread (cur settings : BladeRF1OutputSettings) (force : Bool) : Bool :=
  decide (cur.m_devSampleRate ≠ settings.m_devSampleRate) ||
    decide (cur.m_log2Interp ≠ settings.m_log2Interp) || force

/-- Lines 327-337: the local `threadWasRunning`: set when the worker exists, is running
and is being suspended. -/
def threadWasRunning (d : Bladerf1Output) (settings : BladeRF1OutputSettings)
    (force : Bool) : Bool :=
  suspendOwnThread d.m_settings settings force &&
    (match d.m_bladerfThread with
     | some t => t.m_running
     | none => false)

/-- Lines 327-337: the `stopWork` call. -/
def stepSuspend (d : Bladerf1Output) (settings : BladeRF1OutputSettings) (force : Bool) :
    List Event :=
  if threadWasRunning d settings force then [Event.stopWork] else []

/-- Lines 341-352: the capacity passed to the FIFO. -/
def fifoSize (k : DeviceBladeRF1Shared) (devSampleRate : Int) (log2Interp : Nat) : Int :=
  if log2Interp ≥ 5 then
    k.m_sampleFifoMinSize32
  else
    max (k.scaleBySeconds (basebandRate devSampleRate log2Interp)) k.m_sampleFifoMinSize

/-- Line 339: the guard of the FIFO block (the same test as `suspendOwnThread`). -/
def resizes (cur settings : BladeRF1OutputSettings) (force : Bool) : Bool :=
  decide (cur.m_devSampleRate ≠ settings.m_devSampleRate) ||
    decide (cur.m_log2Interp ≠ settings.m_log2Interp) || force

/-- Lines 339-355: the FIFO resize. -/
def stepFifo (k : DeviceBladeRF1Shared) (d : Bladerf1Output)
    (settings : BladeRF1OutputSettings) (force : Bool) : List Event :=
  if resizes d.m_settings settings force then
    [Event.fifoResize (fifoSize k settings.m_devSampleRate settings.m_log2Interp)]
  else []

/-- A hardware call whose failure test is `< 0`, followed by its log line. -/
def callNeg (ret : HwCall → Int) (c : HwCall) : List Event :=
  [Event.hw c, Event.log c (decide (¬ ret c < 0))]

/-- A hardware call whose failure test is `!= 0`, followed by its log line. -/
def callNonzero (ret : HwCall → Int) (c : HwCall) : List Event :=
  [Event.hw c, Event.log c (decide (ret c = 0))]

/-- Lines 357-371: the sample rate. -/
def stepSampleRate (ret : HwCall → Int) (d : Bladerf1Output)
    (settings : BladeRF1OutputSettings) (force : Bool) : List Event :=
  if changed d.m_settings.m_devSampleRate settings.m_devSampleRate force then
    if d.m_dev ≠ 0 then callNeg ret (HwCall.set_sample_rate settings.m_devSampleRate)
    else []
  else []

/-- Lines 373-382: the interpolation factor, set on the worker when there is one. -/
def stepLog2Interp (d : Bladerf1Output) (settings : BladeRF1OutputSettings)
    (force : Bool) : List Event :=
  if changed d.m_settings.m_log2Interp settings.m_log2Interp force then
    if d.m_bladerfThread.isSome then [Event.setLog2Interpolation settings.m_log2Interp]
    else []
  else []

/-- Lines 384-396: gain of the first stage. -/
def stepVga1 (ret : HwCall → Int) (d : Bladerf1Output)
    (settings : BladeRF1OutputSettings) (force : Bool) : List Event :=
  if changed d.m_settings.m_vga1 settings.m_vga1 force then
    if d.m_dev ≠ 0 then callNonzero ret (HwCall.set_txvga1 settings.m_vga1) else []
  else []

/-- Lines 398-410: gain of the second stage. -/
def stepVga2 (ret : HwCall → Int) (d : Bladerf1Output)
    (settings : BladeRF1OutputSettings) (force : Bool) : List Event :=
  if changed d.m_settings.m_vga2 settings.m_vga2 force then
    if d.m_dev ≠ 0 then callNonzero ret (HwCall.set_txvga2 settings.m_vga2) else []
  else []

/-- Lines 418-433: the local `changeSettings`: false exactly when a source buddy is
registered and the engine of the first one is running. -/
def changeSettings (d : Bladerf1Output) : Bool :=
  match d.sourceBuddies with
  | buddy :: _ => if buddy.engineState = EngineState.StRunning then false else true
  | [] => true

/-- Lines 412-457: whether the expansion-board block reaches the attach/detach call. -/
def xb200Applies (d : Bladerf1Output) (settings : BladeRF1OutputSettings) (force : Bool) :
    Bool :=
  changed d.m_settings.m_xb200 settings.m_xb200 force && decide (d.m_dev ≠ 0) &&
    changeSettings d

/-- Lines 412-457: expansion-board attach (`BLADERF_XB_200`) or detach (`BLADERF_XB_NONE`). -/
def stepXb200 (ret : HwCall → Int) (d : Bladerf1Output)
    (settings : BladeRF1OutputSettings) (force : Bool) : List Event :=
  if xb200Applies d settings force then
    callNonzero ret (HwCall.expansion_attach settings.m_xb200)
  else []

/-- Lines 459-471: expansion-board path. -/
def stepXb200Path (ret : HwCall → Int) (d : Bladerf1Output)
    (settings : BladeRF1OutputSettings) (force : Bool) : List Event :=
  if changed d.m_settings.m_xb200Path settings.m_xb200Path force then
    if d.m_dev ≠ 0 then callNonzero ret (HwCall.xb200_set_path settings.m_xb200Path)
    else []
  else []

/-- Lines 473-485: expansion-board filter bank. -/
def stepXb200Filter (ret : HwCall → Int) (d : Bladerf1Output)
    (settings : BladeRF1OutputSettings) (force : Bool) : List Event :=
  if changed d.m_settings.m_xb200Filter settings.m_xb200Filter force then
    if d.m_dev ≠ 0 then
      callNonzero ret (HwCall.xb200_set_filterbank settings.m_xb200Filter)
    else []
  else []

/-- Lines 487-501: bandwidth. -/
def stepBandwidth (ret : HwCall → Int) (d : Bladerf1Output)
    (settings : BladeRF1OutputSettings) (force : Bool) : List Event :=
  if changed d.m_settings.m_bandwidth settings.m_bandwidth force then
    if d.m_dev ≠ 0 then callNeg ret (HwCall.set_bandwidth settings.m_bandwidth) else []
  else []

/-- Lines 508-514: center frequency; only the failure is logged. -/
def stepFrequency (ret : HwCall → Int) (d : Bladerf1Output)
    (settings : BladeRF1OutputSettings) : List Event :=
  if d.m_dev ≠ 0 then
    Event.hw (HwCall.set_frequency settings.m_centerFrequency) ::
      (if ret (HwCall.set_frequency settings.m_centerFrequency) ≠ 0 then
        [Event.log (HwCall.set_frequency settings.m_centerFrequency) false]
      else [])
  else []

/-- Lines 516-519: the worker is restarted when it was stopped above. -/
def stepRestart (d : Bladerf1Output) (settings : BladeRF1OutputSettings) (force : Bool) :
    List Event :=
  if threadWasRunning d settings force then [Event.startWork] else []

/-- Lines 523-526: the local `fullUpdate`. -/
def fullUpdate (cur settings : BladeRF1OutputSettings) : Bool :=
  (decide (cur.m_useReverseAPI ≠ settings.m_useReverseAPI) && settings.m_useReverseAPI) ||
    decide (cur.m_reverseAPIAddress ≠ settings.m_reverseAPIAddress) ||
    decide (cur.m_reverseAPIPort ≠ settings.m_reverseAPIPort) ||
    decide (cur.m_reverseAPIDeviceIndex ≠ settings.m_reverseAPIDeviceIndex)

/-- Lines 521-528: the remote-sync call. -/
def stepReverse (d : Bladerf1Output) (settings : BladeRF1OutputSettings) (force : Bool) :
    List Event :=
  if settings.m_useReverseAPI then
    [Event.webapiReverseSendSettings
      (headKeys d.m_settings settings force ++ tailKeys d.m_settings settings force)
      settings (fullUpdate d.m_settings settings || force)]
  else []

/-- Lines 357-382 and 503-506: the final value of the local `forwardChange`. -/
def forwardChange (cur settings : BladeRF1OutputSettings) (force : Bool) : Bool :=
  changed cur.m_devSampleRate settings.m_devSampleRate force ||
    changed cur.m_log2Interp settings.m_log2Interp force ||
    decide (cur.m_centerFrequency ≠ settings.m_centerFrequency)

/-- Lines 534-535: the notification built from the committed snapshot. -/
def notification (settings : BladeRF1OutputSettings) : DSPSignalNotification :=
  { sampleRate := basebandRate settings.m_devSampleRate settings.m_log2Interp
    centerFrequency := settings.m_centerFrequency }

/-- Lines 532-537: the notification pushed to the device engine. -/
def stepNotify (d : Bladerf1Output) (settings : BladeRF1OutputSettings) (force : Bool) :
    List Event :=
  if forwardChange d.m_settings settings force then
    [Event.pushNotification (notification settings)]
  else []

/-- The worker object after the call: stopped at line 333, given the new factor at line
379, restarted at line 518. -/
def threadAfter (d : Bladerf1Output) (settings : BladeRF1OutputSettings) (force : Bool) :
    Option Bladerf1OutputThread :=
  match d.m_bladerfThread with
  | none => none
  | some t =>
    let t1 := if threadWasRunning d settings force then t.stopWork else t
    let t2 := if changed d.m_settings.m_log2Interp settings.m_log2Interp force
      then t1.setLog2Interpolation settings.m_log2Interp else t1
    let t3 := if threadWasRunning d settings force then t2.startWork else t2
    some t3

/-- The hardware part of the trace, lines 357-514, in source order. -/
def hardwarePass (ret : HwCall → Int) (d : Bladerf1Output)
    (settings : BladeRF1OutputSettings) (force : Bool) : List Event :=
  stepSampleRate ret d settings force ++ stepLog2Interp d settings force ++
  stepVga1 ret d settings force ++ stepVga2 ret d settings force ++
  stepXb200 ret d settings force ++ stepXb200Path ret d settings force ++
  stepXb200Filter ret d settings force ++ stepBandwidth ret d settings force ++
  stepFrequency ret d settings

/-- `Bladerf1Output::applySettings(settings, force)`, lines 301-545. -/
def applySettings (k : DeviceBladeRF1Shared) (ret : HwCall → Int) (d : Bladerf1Output)
    (settings : BladeRF1OutputSettings) (force : Bool) : ApplyResult :=
  { result := true
    dev :=
      { d with
        m_settings := settings
        m_bladerfThread := threadAfter d settings force
        m_sampleSourceFifo :=
          if resizes d.m_settings settings force then
            fifoSize k settings.m_devSampleRate settings.m_log2Interp
          else d.m_sampleSourceFifo
        m_sharedParams :=
          if xb200Applies d settings force then
            { d.m_sharedParams with m_xb200Attached := settings.m_xb200 }
          else d.m_sharedParams
        deviceEngineInputMessageQueue :=
          if forwardChange d.m_settings settings force then
            d.deviceEngineInputMessageQueue ++ [notification settings]
          else d.deviceEngineInputMessageQueue }
    reverseAPIKeys := headKeys d.m_settings settings force ++ tailKeys d.m_settings settings force
    forwardChange := forwardChange d.m_settings settings force
    trace :=
      stepSuspend d settings force ++ stepFifo k d settings force ++
      hardwarePass ret d settings force ++
      stepRestart d settings force ++ stepReverse d settings force ++
      stepNotify d settings force }

/-! ## Reading a trace -/

/-- The parameters of a settings snapshot. -/
inductive Param
  | centerFrequency
  | devSampleRate
  | log2Interp
  | vga1
  | vga2
  | xb200
  | xb200Path
  | xb200Filter
  | bandwidth
  | useReverseAPI
  | reverseAPIAddress
  | reverseAPIPort
  | reverseAPIDeviceIndex
deriving DecidableEq, Repr

/-- Whether two snapshots differ on a parameter. -/
def differs (a b : BladeRF1OutputSettings) : Param → Bool
  | Param.centerFrequency => decide (a.m_centerFrequency ≠ b.m_centerFrequency)
  | Param.devSampleRate => decide (a.m_devSampleRate ≠ b.m_devSampleRate)
  | Param.log2Interp => decide (a.m_log2Interp ≠ b.m_log2Interp)
  | Param.vga1 => decide (a.m_vga1 ≠ b.m_vga1)
  | Param.vga2 => decide (a.m_vga2 ≠ b.m_vga2)
  | Param.xb200 => decide (a.m_xb200 ≠ b.m_xb200)
  | Param.xb200Path => decide (a.m_xb200Path ≠ b.m_xb200Path)
  | Param.xb200Filter => decide (a.m_xb200Filter ≠ b.m_xb200Filter)
  | Param.bandwidth => decide (a.m_bandwidth ≠ b.m_bandwidth)
  | Param.useReverseAPI => decide (a.m_useReverseAPI ≠ b.m_useReverseAPI)
  | Param.reverseAPIAddress => decide (a.m_reverseAPIAddress ≠ b.m_reverseAPIAddress)
  | Param.reverseAPIPort => decide (a.m_reverseAPIPort ≠ b.m_reverseAPIPort)
  | Param.reverseAPIDeviceIndex =>
    decide (a.m_reverseAPIDeviceIndex ≠ b.m_reverseAPIDeviceIndex)

/-- All parameters, in declaration order. -/
def allParams : List Param :=
  [Param.centerFrequency, Param.devSampleRate, Param.log2Interp, Param.vga1, Param.vga2,
   Param.xb200, Param.xb200Path, Param.xb200Filter, Param.bandwidth, Param.useReverseAPI,
   Param.reverseAPIAddress, Param.reverseAPIPort, Param.reverseAPIDeviceIndex]

/-- The parameters on which two snapshots differ. -/
def differingParams (a b : BladeRF1OutputSettings) : List Param :=
  allParams.filter (differs a b)

/-- The parameter a hardware write sets, if it sets one. -/
def HwCall.param : HwCall → Option Param
  | HwCall.set_sample_rate _ => some Param.devSampleRate
  | HwCall.set_txvga1 _ => some Param.vga1
  | HwCall.set_txvga2 _ => some Param.vga2
  | HwCall.expansion_attach _ => some Param.xb200
  | HwCall.xb200_set_path _ => some Param.xb200Path
  | HwCall.xb200_set_filterbank _ => some Param.xb200Filter
  | HwCall.set_bandwidth _ => some Param.bandwidth
  | HwCall.set_frequency _ => some Param.centerFrequency
  | _ => none

/-- The hardware call an event is, if it is one. -/
def Event.call : Event → Option HwCall
  | Event.hw c => some c
  | _ => none

/-- The hardware calls of a trace, in order. -/
def hwCalls (tr : List Event) : List HwCall :=
  tr.filterMap Event.call

/-- The parameter an event writes to the hardware, if it writes one. -/
def Event.param : Event → Option Param
  | Event.hw c => c.param
  | _ => none

/-- The parameters written to the hardware by a trace, in order. -/
def writtenParams (tr : List Event) : List Param :=
  tr.filterMap Event.param

/-- The seven parameters whose hardware write sits under a change-or-force test. -/
def guardedParams : List Param :=
  [Param.devSampleRate, Param.vga1, Param.vga2, Param.xb200, Param.xb200Path,
   Param.xb200Filter, Param.bandwidth]

/-- An event stops or starts the worker. -/
def Event.isWorkerControl : Event → Bool
  | Event.stopWork => true
  | Event.startWork => true
  | _ => false

/-- An event is a hardware call. -/
def Event.isHw : Event → Bool
  | Event.hw _ => true
  | _ => false

/-- An event is a FIFO resize. -/
def Event.isFifoResize : Event → Bool
  | Event.fifoResize _ => true
  | _ => false

/-- An event is a notification pushed to the device engine. -/
def Event.isNotification : Event → Bool
  | Event.pushNotification _ => true
  | _ => false

/-- An event applies a parameter: a hardware call, or the factor set on the worker. -/
def Event.isApplyStep : Event → Bool
  | Event.hw _ => true
  | Event.setLog2Interpolation _ => true
  | _ => false

/-- The apply steps of a trace, in order. -/
def applySteps (tr : List Event) : List Event :=
  tr.filter Event.isApplyStep

/-- The fixed order of the apply steps for a requested snapshot. -/
def fixedOrder (settings : BladeRF1OutputSettings) : List Event :=
  [Event.hw (HwCall.set_sample_rate settings.m_devSampleRate),
   Event.setLog2Interpolation settings.m_log2Interp,
   Event.hw (HwCall.set_txvga1 settings.m_vga1),
   Event.hw (HwCall.set_txvga2 settings.m_vga2),
   Event.hw (HwCall.expansion_attach settings.m_xb200),
   Event.hw (HwCall.xb200_set_path settings.m_xb200Path),
   Event.hw (HwCall.xb200_set_filterbank settings.m_xb200Filter),
   Event.hw (HwCall.set_bandwidth settings.m_bandwidth),
   Event.hw (HwCall.set_frequency settings.m_centerFrequency)]

/-- Replays a trace from a worker that is running or not, and tells whether every
hardware call happens while the worker is stopped. -/
def writesOnlyWhileStopped : Bool → List Event → Bool
  | _, [] => true
  | _, Event.stopWork :: es => writesOnlyWhileStopped false es
  | _, Event.startWork :: es => writesOnlyWhileStopped true es
  | running, Event.hw _ :: es => !running && writesOnlyWhileStopped running es
  | running, _ :: es => writesOnlyWhileStopped running es

/-- The nine names `applySettings` can put in `reverseAPIKeys`. -/
def deviceKeys : List String :=
  ["centerFrequency", "devSampleRate", "log2Interp", "vga1", "vga2", "xb200", "xb200Path",
   "xb200Filter", "bandwidth"]

/-- An event of the hardware pass: a hardware call, its log line, or the factor set on
the worker. -/
def Event.isPassEvent : Event → Bool
  | Event.hw _ => true
  | Event.log _ _ => true
  | Event.setLog2Interpolation _ => true
  | _ => false

/-- The apply steps a call is bound to make, read off the entry state alone. -/
def plannedSteps (d : Bladerf1Output) (settings : BladeRF1OutputSettings) (force : Bool) :
    List Event :=
  (if changed d.m_settings.m_devSampleRate settings.m_devSampleRate force = true ∧ d.m_dev ≠ 0
    then [Event.hw (HwCall.set_sample_rate settings.m_devSampleRate)] else []) ++
  (if changed d.m_settings.m_log2Interp settings.m_log2Interp force = true ∧
      d.m_bladerfThread.isSome = true
    then [Event.setLog2Interpolation settings.m_log2Interp] else []) ++
  (if changed d.m_settings.m_vga1 settings.m_vga1 force = true ∧ d.m_dev ≠ 0
    then [Event.hw (HwCall.set_txvga1 settings.m_vga1)] else []) ++
  (if changed d.m_settings.m_vga2 settings.m_vga2 force = true ∧ d.m_dev ≠ 0
    then [Event.hw (HwCall.set_txvga2 settings.m_vga2)] else []) ++
  (if xb200Applies d settings force = true
    then [Event.hw (HwCall.expansion_attach settings.m_xb200)] else []) ++
  (if changed d.m_settings.m_xb200Path settings.m_xb200Path force = true ∧ d.m_dev ≠ 0
    then [Event.hw (HwCall.xb200_set_path settings.m_xb200Path)] else []) ++
  (if changed d.m_settings.m_xb200Filter settings.m_xb200Filter force = true ∧ d.m_dev ≠ 0
    then [Event.hw (HwCall.xb200_set_filterbank settings.m_xb200Filter)] else []) ++
  (if changed d.m_settings.m_bandwidth settings.m_bandwidth force = true ∧ d.m_dev ≠ 0
    then [Event.hw (HwCall.set_bandwidth settings.m_bandwidth)] else []) ++
  (if d.m_dev ≠ 0
    then [Event.hw (HwCall.set_frequency settings.m_centerFrequency)] else [])

/-! ## Fixtures -/

/-- Modelled from the spec: an instance of the `DeviceBladeRF1Shared` constants, which are
declared outside the sources: a quarter of a second of samples, an ordinary floor of
75000 samples and the distinct higher floor of 150000 samples for interpolation by 32. -/
def refShared : DeviceBladeRF1Shared :=
  { scaleBySeconds := fun x => Int.tdiv x 4
    m_sampleFifoMinSize := 75000
    m_sampleFifoMinSize32 := 150000 }

/-- A settings snapshot used in examples. -/
def baseSettings : BladeRF1OutputSettings :=
  { m_centerFrequency := 435000000
    m_devSampleRate := 3072000
    m_vga1 := -20
    m_vga2 := 20
    m_bandwidth := 1500000
    m_log2Interp := 0
    m_xb200 := false
    m_xb200Path := 0
    m_xb200Filter := 0
    m_useReverseAPI := false
    m_reverseAPIAddress := "127.0.0.1"
    m_reverseAPIPort := 8888
    m_reverseAPIDeviceIndex := 0 }

/-- A device with an open handle, no buddy and no worker, confirmed at `baseSettings`. -/
def openDevice0 : Bladerf1Output :=
  { m_settings := baseSettings
    m_dev := 1
    m_bladerfThread := none
    m_running := false
    m_sharedParams := { m_dev := 1, m_xb200Attached := false }
    m_sampleSourceFifo := 768000
    sourceBuddies := []
    deviceEngineInputMessageQueue := []
    m_inputMessageQueue := []
    m_guiMessageQueue := none }

/-- The same device with its worker running. -/
def runningDevice0 : Bladerf1Output :=
  { openDevice0 with
    m_bladerfThread := some { m_running := true, m_log2Interp := 0 }
    m_running := true }

/-- Hardware in which every call succeeds. -/
def retOk : HwCall → Int :=
  fun _ => 0

/-- Hardware in which every call fails. -/
def retFail : HwCall → Int :=
  fun _ => -1

/-! ## Opening and closing the device, starting and stopping the worker -/

/-- A state-changing operation without a return value: the new object and the trace. -/
structure Effect where
  dev : Bladerf1Output
  trace : List Event
deriving DecidableEq, Repr

/-- A state-changing operation that returns a boolean. -/
structure OpResult where
  result : Bool
  dev : Bladerf1Output
  trace : List Event
deriving DecidableEq, Repr

/-- `Bladerf1Output::closeDevice()`, lines 160-185.  The inner test `m_dev != 0` of line
177 always holds there. -/
def closeDevice (ret : HwCall → Int) (d : Bladerf1Output) : Effect :=
  if d.m_dev = 0 then
    { dev := d, trace := [] }
  else
    { dev := { d with m_sharedParams := { d.m_sharedParams with m_dev := 0 }, m_dev := 0 }
      trace :=
        Event.hw (HwCall.enable_module false) ::
          ((if ret (HwCall.enable_module false) < 0
            then [Event.log (HwCall.enable_module false) false] else []) ++
          (if d.sourceBuddies.length = 0 then [Event.hw HwCall.close] else [])) }

/-- Lines 114-127 of `openDevice`: stream configuration, then the TX module is enabled. -/
def configureStream (ret : HwCall → Int) (d : Bladerf1Output) (tr : List Event) : OpResult :=
  if ret HwCall.sync_config < 0 then
    { result := false, dev := d
      trace := tr ++ [Event.hw HwCall.sync_config, Event.log HwCall.sync_config false] }
  else if ret (HwCall.enable_module true) < 0 then
    { result := false, dev := d
      trace := tr ++ [Event.hw HwCall.sync_config, Event.hw (HwCall.enable_module true),
        Event.log (HwCall.enable_module true) false] }
  else
    { result := true, dev := d
      trace := tr ++ [Event.hw HwCall.sync_config, Event.hw (HwCall.enable_module true)] }

/-- Line 81 of `openDevice`: the capacity given to the FIFO before the device is opened. -/
def openFifoSize (settings : BladeRF1OutputSettings) : Int :=
  Int.tdiv settings.m_devSampleRate
    (shl1 (if settings.m_log2Interp ≤ 4 then settings.m_log2Interp else 4))

/-- `Bladerf1Output::openDevice()`, lines 72-128.  `opened` is what
`DeviceBladeRF1::open_bladerf` (not among the sources) yields: its boolean and the handle
it leaves in `m_dev`. -/
def openDevice (ret : HwCall → Int) (opened : Bool × Nat) (d : Bladerf1Output) : OpResult :=
  let c := if d.m_dev ≠ 0 then closeDevice ret d else { dev := d, trace := [] }
  let d1 := { c.dev with m_sampleSourceFifo := openFifoSize c.dev.m_settings }
  let tr1 := c.trace ++ [Event.fifoResize (openFifoSize c.dev.m_settings)]
  match d1.sourceBuddies with
  | sourceBuddy :: _ =>
    match sourceBuddy.buddySharedPtr with
    | none => { result := false, dev := d1, trace := tr1 }
    | some buddySharedParams =>
      if buddySharedParams.m_dev = 0 then
        { result := false, dev := d1, trace := tr1 }
      else
        configureStream ret
          { d1 with m_sharedParams := buddySharedParams, m_dev := buddySharedParams.m_dev }
          tr1
  | [] =>
    if opened.1 = false then
      { result := false, dev := { d1 with m_dev := opened.2 }
        trace := tr1 ++ [Event.hw HwCall.open_bladerf, Event.log HwCall.open_bladerf false] }
    else
      configureStream ret
        { d1 with
          m_dev := opened.2
          m_sharedParams := { d1.m_sharedParams with m_dev := opened.2 } }
        (tr1 ++ [Event.hw HwCall.open_bladerf])

/-- `Bladerf1Output::stop()`, lines 187-198. -/
def stop (d : Bladerf1Output) : Effect :=
  match d.m_bladerfThread with
  | some _ =>
    { dev := { d with m_bladerfThread := none, m_running := false }
      trace := [Event.stopWork] }
  | none => { dev := { d with m_running := false }, trace := [] }

/-- Modelled from the spec: a freshly constructed `Bladerf1OutputThread` (its constructor
is not among the sources): stopped, with factor 0. -/
def newThread : Bladerf1OutputThread :=
  { m_running := false, m_log2Interp := 0 }

/-- `Bladerf1Output::start()`, lines 135-158. -/
def start (k : DeviceBladeRF1Shared) (ret : HwCall → Int) (d : Bladerf1Output) : OpResult :=
  if d.m_dev = 0 then
    { result := false, dev := d, trace := [] }
  else
    let s := if d.m_running then stop d else { dev := d, trace := [] }
    let d1 := { s.dev with m_bladerfThread := some newThread }
    let r := applySettings k ret d1 d1.m_settings true
    let d2 := r.dev
    { result := true
      dev :=
        { d2 with
          m_bladerfThread := d2.m_bladerfThread.map fun t =>
            (t.setLog2Interpolation d2.m_settings.m_log2Interp).startWork
          m_running := true }
      trace :=
        s.trace ++ r.trace ++
          [Event.setLog2Interpolation d2.m_settings.m_log2Interp, Event.startWork] }

/-- States reachable from construction (`m_bladerfThread(0)`, line 43) by `start`, `stop`
and `applySettings`, with any arguments and any hardware behaviour. -/
inductive Reachable (k : DeviceBladeRF1Shared) : Bladerf1Output → Prop
  | constructed (d : Bladerf1Output) (h : d.m_bladerfThread = none) : Reachable k d
  | start (ret : HwCall → Int) (d : Bladerf1Output) (h : Reachable k d) :
      Reachable k (start k ret d).dev
  | stop (d : Bladerf1Output) (h : Reachable k d) : Reachable k (stop d).dev
  | applySettings (ret : HwCall → Int) (d : Bladerf1Output)
      (settings : BladeRF1OutputSettings) (force : Bool) (h : Reachable k d) :
      Reachable k (applySettings k ret d settings force).dev

/-! ## Persistence -/

/-- Modelled from the spec: the settings serializer (`BladeRF1OutputSettings::deserialize`
and `resetToDefaults`, not among the sources).  `deserialize s data` is the member call on
snapshot `s`: its boolean and the snapshot it leaves; `defaults` is the default snapshot. -/
structure SettingsCodec where
  deserialize : BladeRF1OutputSettings → List Nat → Bool × BladeRF1OutputSettings
  defaults : BladeRF1OutputSettings

/-- `Bladerf1Output::deserialize(data)`, lines 205-225: the returned boolean and the new
object. -/
def deserialize (c : SettingsCodec) (d : Bladerf1Output) (data : List Nat) :
    Bool × Bladerf1Output :=
  let parsed := c.deserialize d.m_settings data
  let success := parsed.1
  let m_settings := if parsed.1 = false then c.defaults else parsed.2
  (success,
    { d with
      m_settings := m_settings
      m_inputMessageQueue := d.m_inputMessageQueue ++ [Message.MsgConfigureBladerf1 m_settings true]
      m_guiMessageQueue :=
        d.m_guiMessageQueue.map fun q => q ++ [Message.MsgConfigureBladerf1 m_settings true] })

/-! ## Remote sync -/

/-- The body of the remote-sync request: each device parameter is present or absent. -/
structure SWGBladeRF1OutputSettings where
  centerFrequency : Option Nat
  devSampleRate : Option Int
  vga1 : Option Int
  vga2 : Option Int
  bandwidth : Option Int
  log2Interp : Option Nat
  xb200 : Option Int
  xb200Path : Option Nat
  xb200Filter : Option Nat
deriving DecidableEq, Repr

/-- The request handed to the network manager: verb, the routing fields of the URL, and
the body. -/
structure ReverseRequest where
  verb : String
  address : String
  port : Nat
  deviceIndex : Nat
  tx : Int
  deviceHwType : String
  body : SWGBladeRF1OutputSettings
deriving DecidableEq, Repr

/-- `Bladerf1Output::webapiReverseSendSettings(deviceSettingsKeys, settings, force)`,
lines 649-703. -/
def webapiReverseSendSettings (deviceSettingsKeys : List String)
    (settings : BladeRF1OutputSettings) (force : Bool) : ReverseRequest :=
  { verb := "PATCH"
    address := settings.m_reverseAPIAddress
    port := settings.m_reverseAPIPort
    deviceIndex := settings.m_reverseAPIDeviceIndex
    tx := 1
    deviceHwType := "BladeRF1"
    body :=
      { centerFrequency :=
          if deviceSettingsKeys.contains "centerFrequency" || force
          then some settings.m_centerFrequency else none
        devSampleRate :=
          if deviceSettingsKeys.contains "devSampleRate" || force
          then some settings.m_devSampleRate else none
        vga1 :=
          if deviceSettingsKeys.contains "vga1" || force then some settings.m_vga1 else none
        vga2 :=
          if deviceSettingsKeys.contains "vga2" || force then some settings.m_vga2 else none
        bandwidth :=
          if deviceSettingsKeys.contains "bandwidth" || force
          then some settings.m_bandwidth else none
        log2Interp :=
          if deviceSettingsKeys.contains "log2Interp" || force
          then some settings.m_log2Interp else none
        xb200 :=
          if deviceSettingsKeys.contains "xb200" || force
          then some (if settings.m_xb200 then 1 else 0) else none
        xb200Path :=
          if deviceSettingsKeys.contains "xb200Path" || force
          then some settings.m_xb200Path else none
        xb200Filter :=
          if deviceSettingsKeys.contains "xb200Filter" || force
          then some settings.m_xb200Filter else none } }

/-- The request an event sends to the remote-sync sink, if it sends one. -/
def Event.patch : Event → Option ReverseRequest
  | Event.webapiReverseSendSettings keys settings force =>
    some (Bladerf1.webapiReverseSendSettings keys settings force)
  | _ => none

/-- The requests a trace sends to the remote-sync sink, in order. -/
def emittedPatches (tr : List Event) : List ReverseRequest :=
  tr.filterMap Event.patch

/-- The device parameters a request body carries, in the order of the source. -/
def SWGBladeRF1OutputSettings.carried (b : SWGBladeRF1OutputSettings) : List Param :=
  (if b.centerFrequency.isSome then [Param.centerFrequency] else []) ++
  (if b.devSampleRate.isSome then [Param.devSampleRate] else []) ++
  (if b.vga1.isSome then [Param.vga1] else []) ++
  (if b.vga2.isSome then [Param.vga2] else []) ++
  (if b.bandwidth.isSome then [Param.bandwidth] else []) ++
  (if b.log2Interp.isSome then [Param.log2Interp] else []) ++
  (if b.xb200.isSome then [Param.xb200] else []) ++
  (if b.xb200Path.isSome then [Param.xb200Path] else []) ++
  (if b.xb200Filter.isSome then [Param.xb200Filter] else [])

/-- The nine device parameters, in the order the request body is filled. -/
def deviceParams : List Param :=
  [Param.centerFrequency, Param.devSampleRate, Param.vga1, Param.vga2, Param.bandwidth,
   Param.log2Interp, Param.xb200, Param.xb200Path, Param.xb200Filter]

/-- The name under which `applySettings` lists a parameter in `reverseAPIKeys`; the
remote-sync parameters have none. -/
def Param.key : Param → Option String
  | Param.centerFrequency => some "centerFrequency"
  | Param.devSampleRate => some "devSampleRate"
  | Param.log2Interp => some "log2Interp"
  | Param.vga1 => some "vga1"
  | Param.vga2 => some "vga2"
  | Param.xb200 => some "xb200"
  | Param.xb200Path => some "xb200Path"
  | Param.xb200Filter => some "xb200Filter"
  | Param.bandwidth => some "bandwidth"
  | _ => none

/-- The body in which all nine device parameters are present. -/
def fullBody (settings : BladeRF1OutputSettings) : SWGBladeRF1OutputSettings :=
  { centerFrequency := some settings.m_centerFrequency
    devSampleRate := some settings.m_devSampleRate
    vga1 := some settings.m_vga1
    vga2 := some settings.m_vga2
    bandwidth := some settings.m_bandwidth
    log2Interp := some settings.m_log2Interp
    xb200 := some (if settings.m_xb200 then 1 else 0)
    xb200Path := some settings.m_xb200Path
    xb200Filter := some settings.m_xb200Filter }

/-! ## Further fixtures -/

/-- A source buddy whose engine is running and whose handle is open. -/
def buddyRunning : DeviceSourceAPI :=
  { buddySharedPtr := some { m_dev := 1, m_xb200Attached := false }
    engineState := EngineState.StRunning }

/-- A source buddy that is registered but has no open handle. -/
def buddyNoHandle : DeviceSourceAPI :=
  { buddySharedPtr := some { m_dev := 0, m_xb200Attached := false }
    engineState := EngineState.StIdle }

/-- The open device of `openDevice0` next to a running source buddy. -/
def deviceBesideRunningBuddy : Bladerf1Output :=
  { openDevice0 with sourceBuddies := [buddyRunning] }

/-- A device that has no handle yet, next to a buddy that has none either. -/
def closedDeviceBesideNullBuddy : Bladerf1Output :=
  { openDevice0 with
    m_dev := 0
    m_sharedParams := { m_dev := 0, m_xb200Attached := false }
    sourceBuddies := [buddyNoHandle] }

/-- A serializer used in examples: it accepts the two-byte strings that start with 1 and
reads the center frequency from the second byte; the default snapshot is `baseSettings`
with a zero center frequency. -/
def refCodec : SettingsCodec :=
  { deserialize := fun s data =>
      match data with
      | [1, f] => (true, { s with m_centerFrequency := f })
      | _ => (false, { s with m_centerFrequency := 7 })
    defaults := { baseSettings with m_centerFrequency := 0 } }

/-! ## Auxiliary facts -/

theorem mem_ite_singleton {α : Type} (c : Bool) (a x : α) :
    x ∈ (if c = true then [a] else []) ↔ c = true ∧ x = a := by
  cases c <;> simp

theorem changed_iff {α : Type} [DecidableEq α] (old new : α) (force : Bool) :
    changed old new force = true ↔ old ≠ new ∨ force = true := by
  simp [changed]

theorem changed_self_false {α : Type} [DecidableEq α] (a : α) : changed a a false = false := by
  simp [changed]

theorem changed_force {α : Type} [DecidableEq α] (old new : α) : changed old new true = true := by
  simp [changed]

theorem stepSampleRate_pass (ret : HwCall → Int) (d : Bladerf1Output)
    (s : BladeRF1OutputSettings) (f : Bool) :
    ∀ e ∈ stepSampleRate ret d s f, e.isPassEvent = true := by
  intro e he
  unfold stepSampleRate callNeg at he
  split_ifs at he <;> simp at he
  rcases he with rfl | rfl <;> rfl

theorem stepLog2Interp_pass (d : Bladerf1Output) (s : BladeRF1OutputSettings) (f : Bool) :
    ∀ e ∈ stepLog2Interp d s f, e.isPassEvent = true := by
  intro e he
  unfold stepLog2Interp at he
  split_ifs at he <;> simp at he
  subst he
  rfl

theorem stepVga1_pass (ret : HwCall → Int) (d : Bladerf1Output)
    (s : BladeRF1OutputSettings) (f : Bool) :
    ∀ e ∈ stepVga1 ret d s f, e.isPassEvent = true := by
  intro e he
  unfold stepVga1 callNonzero at he
  split_ifs at he <;> simp at he
  rcases he with rfl | rfl <;> rfl

theorem stepVga2_pass (ret : HwCall → Int) (d : Bladerf1Output)
    (s : BladeRF1OutputSettings) (f : Bool) :
    ∀ e ∈ stepVga2 ret d s f, e.isPassEvent = true := by
  intro e he
  unfold stepVga2 callNonzero at he
  split_ifs at he <;> simp at he
  rcases he with rfl | rfl <;> rfl

theorem stepXb200_pass (ret : HwCall → Int) (d : Bladerf1Output)
    (s : BladeRF1OutputSettings) (f : Bool) :
    ∀ e ∈ stepXb200 ret d s f, e.isPassEvent = true := by
  intro e he
  unfold stepXb200 callNonzero at he
  split_ifs at he <;> simp at he
  rcases he with rfl | rfl <;> rfl

theorem stepXb200Path_pass (ret : HwCall → Int) (d : Bladerf1Output)
    (s : BladeRF1OutputSettings) (f : Bool) :
    ∀ e ∈ stepXb200Path ret d s f, e.isPassEvent = true := by
  intro e he
  unfold stepXb200Path callNonzero at he
  split_ifs at he <;> simp at he
  rcases he with rfl | rfl <;> rfl

theorem stepXb200Filter_pass (ret : HwCall → Int) (d : Bladerf1Output)
    (s : BladeRF1OutputSettings) (f : Bool) :
    ∀ e ∈ stepXb200Filter ret d s f, e.isPassEvent = true := by
  intro e he
  unfold stepXb200Filter callNonzero at he
  split_ifs at he <;> simp at he
  rcases he with rfl | rfl <;> rfl

theorem stepBandwidth_pass (ret : HwCall → Int) (d : Bladerf1Output)
    (s : BladeRF1OutputSettings) (f : Bool) :
    ∀ e ∈ stepBandwidth ret d s f, e.isPassEvent = true := by
  intro e he
  unfold stepBandwidth callNeg at he
  split_ifs at he <;> simp at he
  rcases he with rfl | rfl <;> rfl

theorem stepFrequency_pass (ret : HwCall → Int) (d : Bladerf1Output)
    (s : BladeRF1OutputSettings) :
    ∀ e ∈ stepFrequency ret d s, e.isPassEvent = true := by
  intro e he
  unfold stepFrequency at he
  split_ifs at he <;> simp at he
  · rcases he with rfl | rfl <;> rfl
  · subst he
    rfl

/-- Every event of the hardware pass is a hardware call, a log line or the factor set on
the worker. -/
theorem hardwarePass_pass (ret : HwCall → Int) (d : Bladerf1Output)
    (s : BladeRF1OutputSettings) (f : Bool) :
    ∀ e ∈ hardwarePass ret d s f, e.isPassEvent = true := by
  intro e he
  simp only [hardwarePass, List.mem_append] at he
  rcases he with (((((((h | h) | h) | h) | h) | h) | h) | h) | h
  · exact stepSampleRate_pass ret d s f e h
  · exact stepLog2Interp_pass d s f e h
  · exact stepVga1_pass ret d s f e h
  · exact stepVga2_pass ret d s f e h
  · exact stepXb200_pass ret d s f e h
  · exact stepXb200Path_pass ret d s f e h
  · exact stepXb200Filter_pass ret d s f e h
  · exact stepBandwidth_pass ret d s f e h
  · exact stepFrequency_pass ret d s e h

theorem pass_not_control (e : Event) (h : e.isPassEvent = true) :
    e ≠ Event.stopWork ∧ e ≠ Event.startWork ∧ e.isFifoResize = false ∧
      e.isNotification = false := by
  cases e <;> simp_all [Event.isPassEvent, Event.isFifoResize, Event.isNotification]

/-- The events after the restart: the remote-sync call and the notification. -/
theorem tail_events (d : Bladerf1Output) (s : BladeRF1OutputSettings) (f : Bool) :
    ∀ e ∈ stepReverse d s f ++ stepNotify d s f,
      e ≠ Event.stopWork ∧ e ≠ Event.startWork ∧ e.isHw = false ∧
        e.isFifoResize = false ∧ e.isApplyStep = false := by
  intro e he
  simp only [stepReverse, stepNotify, List.mem_append] at he
  rcases he with h | h <;> split_ifs at h <;> simp at h <;> subst h <;>
    simp [Event.isHw, Event.isFifoResize, Event.isApplyStep]

theorem applySteps_stepSuspend (d : Bladerf1Output) (s : BladeRF1OutputSettings) (f : Bool) :
    applySteps (stepSuspend d s f) = [] := by
  unfold applySteps stepSuspend
  split_ifs <;> rfl

theorem applySteps_stepFifo (k : DeviceBladeRF1Shared) (d : Bladerf1Output)
    (s : BladeRF1OutputSettings) (f : Bool) : applySteps (stepFifo k d s f) = [] := by
  unfold applySteps stepFifo
  split_ifs <;> rfl

theorem applySteps_stepRestart (d : Bladerf1Output) (s : BladeRF1OutputSettings) (f : Bool) :
    applySteps (stepRestart d s f) = [] := by
  unfold applySteps stepRestart
  split_ifs <;> rfl

theorem applySteps_stepReverse (d : Bladerf1Output) (s : BladeRF1OutputSettings) (f : Bool) :
    applySteps (stepReverse d s f) = [] := by
  unfold applySteps stepReverse
  split_ifs <;> rfl

theorem applySteps_stepNotify (d : Bladerf1Output) (s : BladeRF1OutputSettings) (f : Bool) :
    applySteps (stepNotify d s f) = [] := by
  unfold applySteps stepNotify
  split_ifs <;> rfl

theorem applySteps_append (a b : List Event) :
    applySteps (a ++ b) = applySteps a ++ applySteps b := by
  simp [applySteps]

/-- The apply steps of the hardware pass do not depend on what the hardware returns. -/
theorem applySteps_hardwarePass (ret : HwCall → Int) (d : Bladerf1Output)
    (s : BladeRF1OutputSettings) (f : Bool) :
    applySteps (hardwarePass ret d s f) = plannedSteps d s f := by
  have h1 : applySteps (stepSampleRate ret d s f) =
      (if changed d.m_settings.m_devSampleRate s.m_devSampleRate f = true ∧ d.m_dev ≠ 0
        then [Event.hw (HwCall.set_sample_rate s.m_devSampleRate)] else []) := by
    unfold applySteps stepSampleRate callNeg
    split_ifs <;> simp_all [Event.isApplyStep]
  have h2 : applySteps (stepLog2Interp d s f) =
      (if changed d.m_settings.m_log2Interp s.m_log2Interp f = true ∧
          d.m_bladerfThread.isSome = true
        then [Event.setLog2Interpolation s.m_log2Interp] else []) := by
    unfold applySteps stepLog2Interp
    split_ifs <;> simp_all [Event.isApplyStep]
  have h3 : applySteps (stepVga1 ret d s f) =
      (if changed d.m_settings.m_vga1 s.m_vga1 f = true ∧ d.m_dev ≠ 0
        then [Event.hw (HwCall.set_txvga1 s.m_vga1)] else []) := by
    unfold applySteps stepVga1 callNonzero
    split_ifs <;> simp_all [Event.isApplyStep]
  have h4 : applySteps (stepVga2 ret d s f) =
      (if changed d.m_settings.m_vga2 s.m_vga2 f = true ∧ d.m_dev ≠ 0
        then [Event.hw (HwCall.set_txvga2 s.m_vga2)] else []) := by
    unfold applySteps stepVga2 callNonzero
    split_ifs <;> simp_all [Event.isApplyStep]
  have h5 : applySteps (stepXb200 ret d s f) =
      (if xb200Applies d s f = true
        then [Event.hw (HwCall.expansion_attach s.m_xb200)] else []) := by
    unfold applySteps stepXb200 callNonzero
    split_ifs <;> simp_all [Event.isApplyStep]
  have h6 : applySteps (stepXb200Path ret d s f) =
      (if changed d.m_settings.m_xb200Path s.m_xb200Path f = true ∧ d.m_dev ≠ 0
        then [Event.hw (HwCall.xb200_set_path s.m_xb200Path)] else []) := by
    unfold applySteps stepXb200Path callNonzero
    split_ifs <;> simp_all [Event.isApplyStep]
  have h7 : applySteps (stepXb200Filter ret d s f) =
      (if changed d.m_settings.m_xb200Filter s.m_xb200Filter f = true ∧ d.m_dev ≠ 0
        then [Event.hw (HwCall.xb200_set_filterbank s.m_xb200Filter)] else []) := by
    unfold applySteps stepXb200Filter callNonzero
    split_ifs <;> simp_all [Event.isApplyStep]
  have h8 : applySteps (stepBandwidth ret d s f) =
      (if changed d.m_settings.m_bandwidth s.m_bandwidth f = true ∧ d.m_dev ≠ 0
        then [Event.hw (HwCall.set_bandwidth s.m_bandwidth)] else []) := by
    unfold applySteps stepBandwidth callNeg
    split_ifs <;> simp_all [Event.isApplyStep]
  have h9 : applySteps (stepFrequency ret d s) =
      (if d.m_dev ≠ 0
        then [Event.hw (HwCall.set_frequency s.m_centerFrequency)] else []) := by
    unfold applySteps stepFrequency
    split_ifs <;> simp_all [Event.isApplyStep]
  simp only [hardwarePass, applySteps_append, h1, h2, h3, h4, h5, h6, h7, h8, h9,
    plannedSteps]

/-- The apply steps of a whole call are the planned ones. -/
theorem applySteps_trace (k : DeviceBladeRF1Shared) (ret : HwCall → Int)
    (d : Bladerf1Output) (s : BladeRF1OutputSettings) (f : Bool) :
    applySteps (applySettings k ret d s f).trace = plannedSteps d s f := by
  simp only [applySettings, applySteps_append, applySteps_stepSuspend, applySteps_stepFifo,
    applySteps_stepRestart, applySteps_stepReverse, applySteps_stepNotify,
    applySteps_hardwarePass, List.nil_append, List.append_nil]

theorem writtenParams_eq_applySteps (tr : List Event) :
    writtenParams tr = (applySteps tr).filterMap Event.param := by
  induction tr with
  | nil => rfl
  | cons e es ih =>
    cases e <;>
      simp_all [writtenParams, applySteps, Event.param, Event.isApplyStep, List.filter_cons,
        List.filterMap_cons]

/-- The parameters written by a call, read off the entry state. -/
theorem writtenParams_trace (k : DeviceBladeRF1Shared) (ret : HwCall → Int)
    (d : Bladerf1Output) (s : BladeRF1OutputSettings) (f : Bool) :
    writtenParams (applySettings k ret d s f).trace =
      (plannedSteps d s f).filterMap Event.param := by
  rw [writtenParams_eq_applySteps, applySteps_trace]

theorem mem_filterMap_ite {α β : Type} (c : Prop) [Decidable c] (g : α → Option β) (a : α)
    (x : β) : x ∈ (if c then [a] else []).filterMap g ↔ c ∧ g a = some x := by
  by_cases h : c <;> simp [h, List.filterMap_cons]
  cases g a <;> simp [eq_comm]

/-- Shape of the trace when the worker was running and is suspended. -/
theorem trace_of_suspended (k : DeviceBladeRF1Shared) (ret : HwCall → Int)
    (d : Bladerf1Output) (s : BladeRF1OutputSettings) (f : Bool)
    (h : threadWasRunning d s f = true) :
    (applySettings k ret d s f).trace =
      Event.stopWork :: Event.fifoResize (fifoSize k s.m_devSampleRate s.m_log2Interp) ::
        hardwarePass ret d s f ++ Event.startWork :: (stepReverse d s f ++ stepNotify d s f) := by
  have hr : resizes d.m_settings s f = true := by
    simp only [threadWasRunning, suspendOwnThread, Bool.and_eq_true] at h
    exact h.1
  simp [applySettings, stepSuspend, stepFifo, stepRestart, h, hr]

/-- Shape of the trace when the worker is not suspended. -/
theorem trace_of_not_suspended (k : DeviceBladeRF1Shared) (ret : HwCall → Int)
    (d : Bladerf1Output) (s : BladeRF1OutputSettings) (f : Bool)
    (h : threadWasRunning d s f = false) :
    (applySettings k ret d s f).trace =
      stepFifo k d s f ++ hardwarePass ret d s f ++
        (stepReverse d s f ++ stepNotify d s f) := by
  simp [applySettings, stepSuspend, stepRestart, h]

theorem stepFifo_events (k : DeviceBladeRF1Shared) (d : Bladerf1Output)
    (s : BladeRF1OutputSettings) (f : Bool) :
    ∀ e ∈ stepFifo k d s f, e ≠ Event.stopWork ∧ e ≠ Event.startWork ∧ e.isHw = false := by
  intro e he
  unfold stepFifo at he
  split_ifs at he <;> simp at he
  subst he
  simp [Event.isHw]

theorem writesOnlyWhileStopped_skip (l r : List Event)
    (h : ∀ e ∈ l, e ≠ Event.stopWork ∧ e ≠ Event.startWork) :
    writesOnlyWhileStopped false (l ++ r) = writesOnlyWhileStopped false r := by
  induction l with
  | nil => rfl
  | cons e es ih =>
    have hes : ∀ x ∈ es, x ≠ Event.stopWork ∧ x ≠ Event.startWork :=
      fun x hx => h x (List.mem_cons_of_mem _ hx)
    have he := h e (List.mem_cons_self _ _)
    cases e <;> simp_all [writesOnlyWhileStopped]

theorem writesOnlyWhileStopped_no_hw (b : Bool) (l : List Event)
    (h : ∀ e ∈ l, e.isHw = false) : writesOnlyWhileStopped b l = true := by
  induction l generalizing b with
  | nil => rfl
  | cons e es ih =>
    have hes : ∀ x ∈ es, x.isHw = false := fun x hx => h x (List.mem_cons_of_mem _ hx)
    have he := h e (List.mem_cons_self _ _)
    have ih1 := fun c => ih c hes
    cases e <;> first
      | (simp [writesOnlyWhileStopped, ih1]; done)
      | simp [Event.isHw] at he

/-! ## C1: the requested snapshot is always committed -/

/-- C1: for every shared constants, every hardware behaviour (each write may succeed or
fail), every object state (handle open or null) and either value of force, applySettings
returns true and leaves `m_settings` equal to the requested snapshot. -/
theorem applySettings_commits_requested (k : DeviceBladeRF1Shared) (ret : HwCall → Int)
    (d : Bladerf1Output) (settings : BladeRF1OutputSettings) (force : Bool) :
    (applySettings k ret d settings force).dev.m_settings = settings ∧
    (applySettings k ret d settings force).result = true :=
  ⟨rfl, rfl⟩

/-! ## C2: the changed-keys list -/

/-- C2, as stated, fails: the requested snapshot differs from the confirmed one on the
remote-sync port, force is not set, and `reverseAPIKeys` is empty, so no name stands for
the parameter that changed. -/
theorem reverseAPIKeys_remote_sync_counterexample :
    differs openDevice0.m_settings { baseSettings with m_reverseAPIPort := 8889 }
      Param.reverseAPIPort = true ∧
    (applySettings refShared retOk openDevice0
      { baseSettings with m_reverseAPIPort := 8889 } false).reverseAPIKeys = [] := by
  decide

/-- C2, amended: each of the nine device parameters has its name in `reverseAPIKeys`
exactly when its value differs between the confirmed and the requested snapshot or force
is set; no other name is ever listed (the four remote-sync parameters have none); so
applying the confirmed snapshot with force lists the nine names and without force lists
nothing. -/
theorem reverseAPIKeys_device_parameters (k : DeviceBladeRF1Shared) (ret : HwCall → Int)
    (d : Bladerf1Output) (settings : BladeRF1OutputSettings) (force : Bool) :
    ("centerFrequency" ∈ (applySettings k ret d settings force).reverseAPIKeys ↔
      (d.m_settings.m_centerFrequency ≠ settings.m_centerFrequency ∨ force = true)) ∧
    ("devSampleRate" ∈ (applySettings k ret d settings force).reverseAPIKeys ↔
      (d.m_settings.m_devSampleRate ≠ settings.m_devSampleRate ∨ force = true)) ∧
    ("log2Interp" ∈ (applySettings k ret d settings force).reverseAPIKeys ↔
      (d.m_settings.m_log2Interp ≠ settings.m_log2Interp ∨ force = true)) ∧
    ("vga1" ∈ (applySettings k ret d settings force).reverseAPIKeys ↔
      (d.m_settings.m_vga1 ≠ settings.m_vga1 ∨ force = true)) ∧
    ("vga2" ∈ (applySettings k ret d settings force).reverseAPIKeys ↔
      (d.m_settings.m_vga2 ≠ settings.m_vga2 ∨ force = true)) ∧
    ("xb200" ∈ (applySettings k ret d settings force).reverseAPIKeys ↔
      (d.m_settings.m_xb200 ≠ settings.m_xb200 ∨ force = true)) ∧
    ("xb200Path" ∈ (applySettings k ret d settings force).reverseAPIKeys ↔
      (d.m_settings.m_xb200Path ≠ settings.m_xb200Path ∨ force = true)) ∧
    ("xb200Filter" ∈ (applySettings k ret d settings force).reverseAPIKeys ↔
      (d.m_settings.m_xb200Filter ≠ settings.m_xb200Filter ∨ force = true)) ∧
    ("bandwidth" ∈ (applySettings k ret d settings force).reverseAPIKeys ↔
      (d.m_settings.m_bandwidth ≠ settings.m_bandwidth ∨ force = true)) ∧
    (∀ name : String, name ∈ (applySettings k ret d settings force).reverseAPIKeys →
      name ∈ deviceKeys) ∧
    (applySettings k ret d d.m_settings true).reverseAPIKeys = deviceKeys ∧
    (applySettings k ret d d.m_settings false).reverseAPIKeys = [] := by
  refine ⟨?_, ?_, ?_, ?_, ?_, ?_, ?_, ?_, ?_, ?_, ?_, ?_⟩
  case refine_10 =>
    intro name h
    simp only [applySettings, headKeys, tailKeys, List.mem_append, mem_ite_singleton] at h
    simp only [deviceKeys, List.mem_cons, List.mem_singleton]
    tauto
  case refine_11 =>
    simp [applySettings, headKeys, tailKeys, changed_force, deviceKeys]
  case refine_12 =>
    simp [applySettings, headKeys, tailKeys, changed_self_false]
  all_goals
    simp [applySettings, headKeys, tailKeys, List.mem_append, mem_ite_singleton, changed_iff]

/-! ## C3: which parameters are written without force -/

/-- C3, as stated, fails: on an open handle and without force, a request that differs
from the confirmed snapshot on the interpolation factor alone writes the center frequency,
which does not differ, and makes no hardware write for the factor, which does; the set of
parameters written is not the set of parameters on which the snapshots differ. -/
theorem writes_not_the_differences_counterexample :
    openDevice0.m_dev ≠ 0 ∧
    differingParams openDevice0.m_settings { baseSettings with m_log2Interp := 3 } =
      [Param.log2Interp] ∧
    writtenParams (applySettings refShared retOk openDevice0
      { baseSettings with m_log2Interp := 3 } false).trace = [Param.centerFrequency] := by
  decide

/-- C3, amended: on an open handle and without force, each of the seven guarded
parameters (sample rate, the two gains, expansion board, its path and filter, bandwidth)
is written exactly when its value differs between the confirmed and the requested
snapshot, the expansion board only if moreover no running source buddy forbids it;
applying the request and then the former confirmed snapshot again writes the same ones
both times, whatever the hardware returns; the interpolation factor and the remote-sync
parameters are never hardware writes. -/
theorem guarded_writes_follow_differences (k : DeviceBladeRF1Shared)
    (ret1 ret2 : HwCall → Int) (d : Bladerf1Output) (s2 : BladeRF1OutputSettings)
    (p : Param) (hdev : d.m_dev ≠ 0) (hp : p ∈ guardedParams) :
    (p ∈ writtenParams (applySettings k ret1 d s2 false).trace ↔
      (differs d.m_settings s2 p = true ∧ (p = Param.xb200 → changeSettings d = true))) ∧
    (p ∈ writtenParams (applySettings k ret2 (applySettings k ret1 d s2 false).dev
        d.m_settings false).trace ↔
      p ∈ writtenParams (applySettings k ret1 d s2 false).trace) ∧
    Param.log2Interp ∉ writtenParams (applySettings k ret1 d s2 false).trace ∧
    Param.useReverseAPI ∉ writtenParams (applySettings k ret1 d s2 false).trace ∧
    Param.reverseAPIAddress ∉ writtenParams (applySettings k ret1 d s2 false).trace ∧
    Param.reverseAPIPort ∉ writtenParams (applySettings k ret1 d s2 false).trace ∧
    Param.reverseAPIDeviceIndex ∉ writtenParams (applySettings k ret1 d s2 false).trace := by
  simp only [guardedParams, List.mem_cons, List.mem_singleton, List.not_mem_nil,
    or_false] at hp
  simp only [writtenParams_trace, plannedSteps, List.filterMap_append, List.mem_append,
    mem_filterMap_ite, Event.param, HwCall.param, xb200Applies, changeSettings]
  rcases hp with rfl | rfl | rfl | rfl | rfl | rfl | rfl <;>
    simp [applySettings, changed, differs, hdev, ne_comm]

/-- Witness for C3: raising the first gain on an open handle writes the first gain. -/
theorem guarded_writes_follow_differences_witness :
    openDevice0.m_dev ≠ 0 ∧ Param.vga1 ∈ guardedParams ∧
    Param.vga1 ∈ writtenParams (applySettings refShared retOk openDevice0
      { baseSettings with m_vga1 := 3 } false).trace :=
  ⟨by decide, by decide,
    (guarded_writes_follow_differences refShared retOk retFail openDevice0
      { baseSettings with m_vga1 := 3 } Param.vga1 (by decide) (by decide)).1.2
      ⟨by decide, by decide⟩⟩

/-! ## C4: one stop/restart cycle on a rate or factor change -/

/-- C4: when the worker exists and is running and the requested device sample rate or
interpolation factor differs from the confirmed one, the trace is `stopWork`, the FIFO
resize, a middle part and `startWork`, then a rest; the middle part holds no stop, start
or resize, the rest holds no stop, start, resize or hardware call; so there is exactly
one `stopWork`, before the resize and every hardware write, and exactly one `startWork`,
after the last hardware write. -/
theorem one_stop_restart_cycle (k : DeviceBladeRF1Shared) (ret : HwCall → Int)
    (d : Bladerf1Output) (settings : BladeRF1OutputSettings) (force : Bool)
    (t : Bladerf1OutputThread) (ht : d.m_bladerfThread = some t) (hrun : t.m_running = true)
    (hdiff : d.m_settings.m_devSampleRate ≠ settings.m_devSampleRate ∨
      d.m_settings.m_log2Interp ≠ settings.m_log2Interp) :
    (∃ mid post : List Event,
      (applySettings k ret d settings force).trace =
        Event.stopWork ::
          Event.fifoResize (fifoSize k settings.m_devSampleRate settings.m_log2Interp) ::
            mid ++ Event.startWork :: post ∧
      (∀ e ∈ mid, e ≠ Event.stopWork ∧ e ≠ Event.startWork ∧ e.isFifoResize = false) ∧
      (∀ e ∈ post, e ≠ Event.stopWork ∧ e ≠ Event.startWork ∧ e.isHw = false ∧
        e.isFifoResize = false)) ∧
    (applySettings k ret d settings force).trace.count Event.stopWork = 1 ∧
    (applySettings k ret d settings force).trace.count Event.startWork = 1 := by
  have hw : threadWasRunning d settings force = true := by
    rcases hdiff with h | h <;> simp [threadWasRunning, suspendOwnThread, ht, hrun, h]
  have hmid : ∀ e ∈ hardwarePass ret d settings force,
      e ≠ Event.stopWork ∧ e ≠ Event.startWork ∧ e.isFifoResize = false := fun e he =>
    let h := pass_not_control e (hardwarePass_pass ret d settings force e he)
    ⟨h.1, h.2.1, h.2.2.1⟩
  have hpost : ∀ e ∈ stepReverse d settings force ++ stepNotify d settings force,
      e ≠ Event.stopWork ∧ e ≠ Event.startWork ∧ e.isHw = false ∧
        e.isFifoResize = false := fun e he =>
    let h := tail_events d settings force e he
    ⟨h.1, h.2.1, h.2.2.1, h.2.2.2.1⟩
  have c1 : (hardwarePass ret d settings force).count Event.stopWork = 0 :=
    List.count_eq_zero.mpr fun hm => (hmid _ hm).1 rfl
  have c2 : (hardwarePass ret d settings force).count Event.startWork = 0 :=
    List.count_eq_zero.mpr fun hm => (hmid _ hm).2.1 rfl
  have c3 : (stepReverse d settings force ++ stepNotify d settings force).count
      Event.stopWork = 0 :=
    List.count_eq_zero.mpr fun hm => (hpost _ hm).1 rfl
  have c4 : (stepReverse d settings force ++ stepNotify d settings force).count
      Event.startWork = 0 :=
    List.count_eq_zero.mpr fun hm => (hpost _ hm).2.1 rfl
  refine ⟨⟨_, _, trace_of_suspended k ret d settings force hw, hmid, hpost⟩, ?_, ?_⟩
  · rw [trace_of_suspended k ret d settings force hw]
    simp [List.count_cons, List.count_append, c1, c3]
  · rw [trace_of_suspended k ret d settings force hw]
    simp [List.count_cons, List.count_append, c2, c4]

/-- Witness for C4: device sample rate 2,000,000 with log2 interpolation 2 requested
while the worker runs. -/
theorem one_stop_restart_cycle_witness :
    runningDevice0.m_bladerfThread = some { m_running := true, m_log2Interp := 0 } ∧
    (applySettings refShared retOk runningDevice0
      { baseSettings with m_devSampleRate := 2000000, m_log2Interp := 2 }
        false).trace.count Event.stopWork = 1 ∧
    (applySettings refShared retOk runningDevice0
      { baseSettings with m_devSampleRate := 2000000, m_log2Interp := 2 }
        false).trace.count Event.startWork = 1 :=
  ⟨rfl,
    (one_stop_restart_cycle refShared retOk runningDevice0
      { baseSettings with m_devSampleRate := 2000000, m_log2Interp := 2 } false
      { m_running := true, m_log2Interp := 0 } rfl rfl (Or.inl (by decide))).2⟩

/-! ## C5: a gain change does not stop the worker -/

/-- C5: without force, a request that differs from the confirmed snapshot in the two
gains at most, applied while the worker runs, issues neither `stopWork` nor `startWork`,
and the worker object is left as it was, running. -/
theorem gain_change_keeps_worker_running (k : DeviceBladeRF1Shared) (ret : HwCall → Int)
    (d : Bladerf1Output) (t : Bladerf1OutputThread) (vga1 vga2 : Int)
    (ht : d.m_bladerfThread = some t) (hrun : t.m_running = true) :
    Event.stopWork ∉ (applySettings k ret d
      { d.m_settings with m_vga1 := vga1, m_vga2 := vga2 } false).trace ∧
    Event.startWork ∉ (applySettings k ret d
      { d.m_settings with m_vga1 := vga1, m_vga2 := vga2 } false).trace ∧
    (applySettings k ret d
      { d.m_settings with m_vga1 := vga1, m_vga2 := vga2 } false).dev.m_bladerfThread =
        some t := by
  have hw : threadWasRunning d { d.m_settings with m_vga1 := vga1, m_vga2 := vga2 } false
      = false := by
    simp [threadWasRunning, suspendOwnThread]
  have hmem : ∀ e ∈ (applySettings k ret d
      { d.m_settings with m_vga1 := vga1, m_vga2 := vga2 } false).trace,
      e ≠ Event.stopWork ∧ e ≠ Event.startWork := by
    intro e he
    rw [trace_of_not_suspended k ret d _ false hw] at he
    simp only [List.mem_append] at he
    rcases he with (h | h) | h
    · exact ⟨(stepFifo_events k d _ false e h).1, (stepFifo_events k d _ false e h).2.1⟩
    · exact ⟨(pass_not_control e (hardwarePass_pass ret d _ false e h)).1,
        (pass_not_control e (hardwarePass_pass ret d _ false e h)).2.1⟩
    · exact ⟨(tail_events d _ false e (List.mem_append.mpr h)).1,
        (tail_events d _ false e (List.mem_append.mpr h)).2.1⟩
  have _ := hrun
  refine ⟨fun h => (hmem _ h).1 rfl, fun h => (hmem _ h).2 rfl, ?_⟩
  simp [applySettings, threadAfter, ht, hw, changed]

/-- Witness for C5: the first gain raised to 3 while the worker runs. -/
theorem gain_change_keeps_worker_running_witness :
    runningDevice0.m_bladerfThread = some { m_running := true, m_log2Interp := 0 } ∧
    Event.stopWork ∉ (applySettings refShared retOk runningDevice0
      { runningDevice0.m_settings with m_vga1 := 3, m_vga2 := 20 } false).trace :=
  ⟨rfl,
    (gain_change_keeps_worker_running refShared retOk runningDevice0
      { m_running := true, m_log2Interp := 0 } 3 20 rfl rfl).1⟩

/-! ## C6: when the worker is stopped around the hardware writes -/

/-- C6, as stated, fails: the worker runs, the request differs from the confirmed
snapshot in the first gain, a hardware-affecting parameter, and applySettings writes the
gain without any `stopWork`: a hardware write is issued while the worker is running. -/
theorem gain_written_while_running_counterexample :
    runningDevice0.m_bladerfThread = some { m_running := true, m_log2Interp := 0 } ∧
    differs runningDevice0.m_settings { baseSettings with m_vga1 := 3 } Param.vga1 = true ∧
    Event.hw (HwCall.set_txvga1 3) ∈ (applySettings refShared retOk runningDevice0
      { baseSettings with m_vga1 := 3 } false).trace ∧
    Event.stopWork ∉ (applySettings refShared retOk runningDevice0
      { baseSettings with m_vga1 := 3 } false).trace ∧
    writesOnlyWhileStopped true (applySettings refShared retOk runningDevice0
      { baseSettings with m_vga1 := 3 } false).trace = false := by
  decide

/-- C6, amended: with the worker running, if the device sample rate or the interpolation
factor differs or force is set, the trace starts with `stopWork`, every hardware write
happens while the worker is stopped, and the worker is running again at the end; if
neither differs and force is not set, the worker is neither stopped nor restarted. -/
theorem writes_while_stopped_on_rate_change (k : DeviceBladeRF1Shared) (ret : HwCall → Int)
    (d : Bladerf1Output) (settings : BladeRF1OutputSettings) (force : Bool)
    (t : Bladerf1OutputThread) (ht : d.m_bladerfThread = some t) (hrun : t.m_running = true) :
    ((d.m_settings.m_devSampleRate ≠ settings.m_devSampleRate ∨
        d.m_settings.m_log2Interp ≠ settings.m_log2Interp ∨ force = true) →
      (applySettings k ret d settings force).trace.head? = some Event.stopWork ∧
      writesOnlyWhileStopped true (applySettings k ret d settings force).trace = true ∧
      ∃ t2, (applySettings k ret d settings force).dev.m_bladerfThread = some t2 ∧
        t2.m_running = true) ∧
    (¬ (d.m_settings.m_devSampleRate ≠ settings.m_devSampleRate ∨
        d.m_settings.m_log2Interp ≠ settings.m_log2Interp ∨ force = true) →
      Event.stopWork ∉ (applySettings k ret d settings force).trace ∧
      Event.startWork ∉ (applySettings k ret d settings force).trace) := by
  constructor
  · intro hdiff
    have hw : threadWasRunning d settings force = true := by
      rcases hdiff with h | h | h <;> simp [threadWasRunning, suspendOwnThread, ht, hrun, h]
    have hmid : ∀ e ∈ Event.fifoResize (fifoSize k settings.m_devSampleRate
        settings.m_log2Interp) :: hardwarePass ret d settings force,
        e ≠ Event.stopWork ∧ e ≠ Event.startWork := by
      intro e he
      rcases List.mem_cons.mp he with h | h
      · subst h
        simp
      · exact ⟨(pass_not_control e (hardwarePass_pass ret d settings force e h)).1,
          (pass_not_control e (hardwarePass_pass ret d settings force e h)).2.1⟩
    have hpost : ∀ e ∈ stepReverse d settings force ++ stepNotify d settings force,
        e.isHw = false := fun e he => (tail_events d settings force e he).2.2.1
    refine ⟨?_, ?_, ?_⟩
    · rw [trace_of_suspended k ret d settings force hw]
      rfl
    · rw [trace_of_suspended k ret d settings force hw]
      have hsplit : Event.stopWork :: Event.fifoResize (fifoSize k settings.m_devSampleRate
          settings.m_log2Interp) :: hardwarePass ret d settings force ++
            Event.startWork :: (stepReverse d settings force ++ stepNotify d settings force) =
          Event.stopWork :: ((Event.fifoResize (fifoSize k settings.m_devSampleRate
            settings.m_log2Interp) :: hardwarePass ret d settings force) ++
              Event.startWork ::
                (stepReverse d settings force ++ stepNotify d settings force)) := by
        simp
      rw [hsplit]
      show writesOnlyWhileStopped false _ = true
      rw [writesOnlyWhileStopped_skip _ _ hmid]
      show writesOnlyWhileStopped true _ = true
      exact writesOnlyWhileStopped_no_hw true _ hpost
    · simp [applySettings, threadAfter, ht, hw, Bladerf1OutputThread.startWork]
  · intro hsame
    have hw : threadWasRunning d settings force = false := by
      simp only [not_or, not_not] at hsame
      simp [threadWasRunning, suspendOwnThread, hsame.1, hsame.2.1, hsame.2.2]
    have hmem : ∀ e ∈ (applySettings k ret d settings force).trace,
        e ≠ Event.stopWork ∧ e ≠ Event.startWork := by
      intro e he
      rw [trace_of_not_suspended k ret d _ _ hw] at he
      simp only [List.mem_append] at he
      rcases he with (h | h) | h
      · exact ⟨(stepFifo_events k d _ _ e h).1, (stepFifo_events k d _ _ e h).2.1⟩
      · exact ⟨(pass_not_control e (hardwarePass_pass ret d _ _ e h)).1,
          (pass_not_control e (hardwarePass_pass ret d _ _ e h)).2.1⟩
      · exact ⟨(tail_events d _ _ e (List.mem_append.mpr h)).1,
          (tail_events d _ _ e (List.mem_append.mpr h)).2.1⟩
    exact ⟨fun h => (hmem _ h).1 rfl, fun h => (hmem _ h).2 rfl⟩

/-- Witness for C6: a forced application of the confirmed snapshot while the worker
runs keeps every hardware write inside the stop/restart pair. -/
theorem writes_while_stopped_on_rate_change_witness :
    runningDevice0.m_bladerfThread = some { m_running := true, m_log2Interp := 0 } ∧
    writesOnlyWhileStopped true
      (applySettings refShared retFail runningDevice0 baseSettings true).trace = true :=
  ⟨rfl,
    ((writes_while_stopped_on_rate_change refShared retFail runningDevice0 baseSettings true
      { m_running := true, m_log2Interp := 0 } rfl rfl).1 (Or.inr (Or.inr rfl))).2.1⟩

/-! ## C7: the rate/frequency notification -/

theorem shl1_eq_pow (n : Nat) (h : n < 31) : shl1 n = 2 ^ n := by
  have h1 : (2 : Int) ^ n < 2 ^ 31 := pow_lt_pow_right₀ (by norm_num) h
  have h2 : (0 : Int) < 2 ^ n := by positivity
  unfold shl1 wrapInt32
  rw [Int.emod_eq_of_lt (by linarith) (by norm_num at h1 ⊢; linarith)]
  ring

/-- C7: when the device sample rate or the center frequency differs between the confirmed
and the requested snapshot, `forwardChange` is true and exactly one notification is
pushed to the device engine's queue; it carries the requested center frequency and the
rate `devSampleRate / (1 << log2Interp)`, which is the requested device sample rate
divided, truncating, by `2 ^ log2Interp` whenever the shift is defined
(`log2Interp < 31`). -/
theorem notification_on_rate_or_frequency_change (k : DeviceBladeRF1Shared)
    (ret : HwCall → Int) (d : Bladerf1Output) (settings : BladeRF1OutputSettings)
    (force : Bool)
    (hdiff : d.m_settings.m_devSampleRate ≠ settings.m_devSampleRate ∨
      d.m_settings.m_centerFrequency ≠ settings.m_centerFrequency) :
    (applySettings k ret d settings force).forwardChange = true ∧
    (applySettings k ret d settings force).dev.deviceEngineInputMessageQueue =
      d.deviceEngineInputMessageQueue ++ [notification settings] ∧
    (applySettings k ret d settings force).trace.filter Event.isNotification =
      [Event.pushNotification (notification settings)] ∧
    (notification settings).centerFrequency = settings.m_centerFrequency ∧
    (settings.m_log2Interp < 31 →
      (notification settings).sampleRate =
        Int.tdiv settings.m_devSampleRate (2 ^ settings.m_log2Interp)) := by
  have hf : forwardChange d.m_settings settings force = true := by
    rcases hdiff with h | h <;> simp [forwardChange, changed, h]
  have hpass : (hardwarePass ret d settings force).filter Event.isNotification = [] :=
    List.filter_eq_nil_iff.mpr fun e he => by
      simp [(pass_not_control e (hardwarePass_pass ret d settings force e he)).2.2.2]
  have h1 : (stepSuspend d settings force).filter Event.isNotification = [] := by
    unfold stepSuspend
    split_ifs <;> rfl
  have h2 : (stepFifo k d settings force).filter Event.isNotification = [] := by
    unfold stepFifo
    split_ifs <;> rfl
  have h3 : (stepRestart d settings force).filter Event.isNotification = [] := by
    unfold stepRestart
    split_ifs <;> rfl
  have h4 : (stepReverse d settings force).filter Event.isNotification = [] := by
    unfold stepReverse
    split_ifs <;> rfl
  refine ⟨hf, ?_, ?_, rfl, ?_⟩
  · simp [applySettings, hf]
  · simp only [applySettings, List.filter_append, hpass, h1, h2, h3, h4, stepNotify, hf]
    rfl
  · intro h31
    simp [notification, basebandRate, shl1_eq_pow _ h31]

/-- Witness for C7: device sample rate 2,000,000 with log2 interpolation 2 gives one
notification with sample rate 500,000. -/
theorem notification_on_rate_or_frequency_change_witness :
    runningDevice0.m_settings.m_devSampleRate ≠ 2000000 ∧
    (applySettings refShared retOk runningDevice0
      { baseSettings with m_devSampleRate := 2000000, m_log2Interp := 2 }
        false).trace.filter Event.isNotification =
      [Event.pushNotification { sampleRate := 500000, centerFrequency := 435000000 }] :=
  ⟨by decide,
    (notification_on_rate_or_frequency_change refShared retOk runningDevice0
      { baseSettings with m_devSampleRate := 2000000, m_log2Interp := 2 } false
      (Or.inl (by decide))).2.2.1⟩

/-! ## C8: the FIFO capacity against the interpolation factor -/

theorem basebandRate_antitone (rate : Int) (a b : Nat) (hrate : 0 ≤ rate) (hab : a ≤ b)
    (hb : b < 31) :
    0 ≤ basebandRate rate b ∧ basebandRate rate b ≤ basebandRate rate a := by
  have ha : a < 31 := lt_of_le_of_lt hab hb
  have hpa : (0 : Int) ≤ 2 ^ a := by positivity
  have hpb : (0 : Int) ≤ 2 ^ b := by positivity
  have hpa0 : (0 : Int) < 2 ^ a := by positivity
  have hpb0 : (0 : Int) < 2 ^ b := by positivity
  have hle : (2 : Int) ^ a ≤ 2 ^ b := pow_le_pow_right₀ (by norm_num) hab
  unfold basebandRate
  rw [shl1_eq_pow a ha, shl1_eq_pow b hb, Int.tdiv_eq_ediv hrate hpa,
    Int.tdiv_eq_ediv hrate hpb]
  refine ⟨Int.ediv_nonneg hrate hpb, ?_⟩
  apply Int.le_ediv_of_mul_le hpa0
  calc rate / 2 ^ b * 2 ^ a ≤ rate / 2 ^ b * 2 ^ b :=
        mul_le_mul_of_nonneg_left hle (Int.ediv_nonneg hrate hpb)
    _ ≤ rate := Int.ediv_mul_le _ (ne_of_gt hpb0)

/-- C8, as stated, fails: with a quarter-second window, floor 75000 and the higher floor
150000 for interpolation by 32, a device sample rate of 2,000,000 gives capacity 75000 at
log2 factor 4 and 150000 at log2 factor 5: the capacity grows across the step from 16x to
32x. -/
theorem fifo_grows_from_16x_to_32x_counterexample :
    fifoSize refShared 2000000 4 = 75000 ∧
    fifoSize refShared 2000000 5 = 150000 ∧
    ¬ (fifoSize refShared 2000000 5 ≤ fifoSize refShared 2000000 4) ∧
    (applySettings refShared retOk openDevice0
      { baseSettings with m_devSampleRate := 2000000, m_log2Interp := 4 }
        false).dev.m_sampleSourceFifo = 75000 ∧
    (applySettings refShared retOk openDevice0
      { baseSettings with m_devSampleRate := 2000000, m_log2Interp := 5 }
        false).dev.m_sampleSourceFifo = 150000 := by
  decide

/-- C8, amended: with positive floors, a window scaling that is monotone on non-negative
rates and a non-negative device sample rate, the capacity is positive for every log2
factor; for factors `a ≤ b` both at most 4 (up to 16x) the capacity for `b` is at most
the capacity for `a`; for both at least 5 (32x and beyond) the two are equal; across the
step from at most 16x to at least 32x the capacity is the fixed floor
`m_sampleFifoMinSize32`, whatever it was before. -/
theorem fifoSize_positive_and_monotone_per_branch (k : DeviceBladeRF1Shared) (rate : Int)
    (a b : Nat) (hmin : 0 < k.m_sampleFifoMinSize) (hmin32 : 0 < k.m_sampleFifoMinSize32)
    (hmono : ∀ x y : Int, 0 ≤ x → x ≤ y → k.scaleBySeconds x ≤ k.scaleBySeconds y)
    (hrate : 0 ≤ rate) (hab : a ≤ b) :
    0 < fifoSize k rate a ∧ 0 < fifoSize k rate b ∧
    (b ≤ 4 → fifoSize k rate b ≤ fifoSize k rate a) ∧
    (5 ≤ a → fifoSize k rate b = fifoSize k rate a) ∧
    (a ≤ 4 → 5 ≤ b → fifoSize k rate b = k.m_sampleFifoMinSize32) := by
  have hpos : ∀ n : Nat, 0 < fifoSize k rate n := by
    intro n
    unfold fifoSize
    split_ifs
    · exact hmin32
    · exact lt_of_lt_of_le hmin (le_max_right _ _)
  refine ⟨hpos a, hpos b, ?_, ?_, ?_⟩
  · intro hb
    have ha : a ≤ 4 := le_trans hab hb
    have hna : ¬ a ≥ 5 := by omega
    have hnb : ¬ b ≥ 5 := by omega
    have hr := basebandRate_antitone rate a b hrate hab (by omega)
    simp only [fifoSize, hna, hnb, if_false]
    exact max_le_max (hmono _ _ hr.1 hr.2) le_rfl
  · intro ha
    have hb : b ≥ 5 := le_trans ha hab
    have ha2 : a ≥ 5 := ha
    simp only [fifoSize, ha2, hb, if_true]
  · intro _ hb
    have hb2 : b ≥ 5 := hb
    simp only [fifoSize, hb2, if_true]

/-- Witness for C8: rate 2,000,000, factors 2 and 3, quarter-second window. -/
theorem fifoSize_positive_and_monotone_per_branch_witness :
    (0 : Int) < refShared.m_sampleFifoMinSize ∧ (2 : Nat) ≤ 3 ∧
    fifoSize refShared 2000000 3 ≤ fifoSize refShared 2000000 2 :=
  ⟨by decide, by decide,
    (fifoSize_positive_and_monotone_per_branch refShared 2000000 2 3 (by decide) (by decide)
      (fun x y hx hxy => by
        show Int.tdiv x 4 ≤ Int.tdiv y 4
        rw [Int.tdiv_eq_ediv hx (by norm_num),
          Int.tdiv_eq_ediv (le_trans hx hxy) (by norm_num)]
        exact Int.ediv_le_ediv (by norm_num) hxy)
      (by decide) (by decide)).2.2.1 (by decide)⟩

/-! ## C9: how the capacity is derived -/

/-- C9, as stated, fails: at interpolation by 32 the code passes the fixed floor and takes
no maximum; with a quarter-second window and floors 75000 and 150000, device sample rate
40,000,000 at log2 factor 5 has an effective rate of 1,250,000 and a timed product of
312,500, yet the capacity passed is 150,000, not max(312500, 150000). -/
theorem fifo_at_32x_ignores_rate_counterexample :
    basebandRate 40000000 5 = 1250000 ∧
    max (refShared.scaleBySeconds (basebandRate 40000000 5))
      refShared.m_sampleFifoMinSize32 = 312500 ∧
    Event.fifoResize 150000 ∈ (applySettings refShared retOk openDevice0
      { baseSettings with m_devSampleRate := 40000000, m_log2Interp := 5 } false).trace ∧
    (applySettings refShared retOk openDevice0
      { baseSettings with m_devSampleRate := 40000000, m_log2Interp := 5 }
        false).dev.m_sampleSourceFifo = 150000 := by
  decide

/-- C9, amended: whenever applySettings resizes the FIFO (sample rate or factor differs,
or force), it resizes it once, to the capacity that is the fixed value
`m_sampleFifoMinSize32` when `log2Interp ≥ 5`, and otherwise the maximum of the timed
product of the effective rate `devSampleRate / 2 ^ log2Interp` and the ordinary floor
`m_sampleFifoMinSize`; so the capacity is never below the applicable floor. -/
theorem fifo_capacity_on_resize (k : DeviceBladeRF1Shared) (ret : HwCall → Int)
    (d : Bladerf1Output) (settings : BladeRF1OutputSettings) (force : Bool)
    (hdiff : d.m_settings.m_devSampleRate ≠ settings.m_devSampleRate ∨
      d.m_settings.m_log2Interp ≠ settings.m_log2Interp ∨ force = true) :
    (applySettings k ret d settings force).trace.filter Event.isFifoResize =
      [Event.fifoResize (applySettings k ret d settings force).dev.m_sampleSourceFifo] ∧
    (5 ≤ settings.m_log2Interp →
      (applySettings k ret d settings force).dev.m_sampleSourceFifo =
        k.m_sampleFifoMinSize32) ∧
    (settings.m_log2Interp < 5 →
      (applySettings k ret d settings force).dev.m_sampleSourceFifo =
        max (k.scaleBySeconds
          (Int.tdiv settings.m_devSampleRate (2 ^ settings.m_log2Interp)))
          k.m_sampleFifoMinSize) ∧
    (if 5 ≤ settings.m_log2Interp then k.m_sampleFifoMinSize32 else k.m_sampleFifoMinSize) ≤
      (applySettings k ret d settings force).dev.m_sampleSourceFifo := by
  have hr : resizes d.m_settings settings force = true := by
    rcases hdiff with h | h | h <;> simp [resizes, h]
  have hpass : (hardwarePass ret d settings force).filter Event.isFifoResize = [] :=
    List.filter_eq_nil_iff.mpr fun e he => by
      simp [(pass_not_control e (hardwarePass_pass ret d settings force e he)).2.2.1]
  have htail : (stepReverse d settings force ++ stepNotify d settings force).filter
      Event.isFifoResize = [] :=
    List.filter_eq_nil_iff.mpr fun e he => by
      simp [(tail_events d settings force e he).2.2.2.1]
  have h1 : (stepSuspend d settings force).filter Event.isFifoResize = [] := by
    unfold stepSuspend
    split_ifs <;> rfl
  have h3 : (stepRestart d settings force).filter Event.isFifoResize = [] := by
    unfold stepRestart
    split_ifs <;> rfl
  have hcap : (applySettings k ret d settings force).dev.m_sampleSourceFifo =
      fifoSize k settings.m_devSampleRate settings.m_log2Interp := by
    simp [applySettings, hr]
  refine ⟨?_, ?_, ?_, ?_⟩
  · rw [hcap]
    have hassoc : (applySettings k ret d settings force).trace =
        stepSuspend d settings force ++ stepFifo k d settings force ++
          hardwarePass ret d settings force ++ stepRestart d settings force ++
            (stepReverse d settings force ++ stepNotify d settings force) := by
      simp [applySettings]
    rw [hassoc]
    simp only [List.filter_append, hpass, htail, h1, h3, stepFifo, hr, if_true,
      List.nil_append, List.append_nil]
    rfl
  · intro h5
    have h5b : settings.m_log2Interp ≥ 5 := h5
    rw [hcap]
    simp only [fifoSize, h5b, if_true]
  · intro h5
    have h5b : ¬ settings.m_log2Interp ≥ 5 := by omega
    rw [hcap]
    simp only [fifoSize, h5b, if_false, basebandRate, shl1_eq_pow _ (by omega : settings.m_log2Interp < 31)]
  · rw [hcap]
    unfold fifoSize
    split_ifs with h5
    · exact le_rfl
    · exact le_max_right _ _

/-- Witness for C9: rate 2,000,000 at log2 factor 2 resizes to max(125000, 75000). -/
theorem fifo_capacity_on_resize_witness :
    openDevice0.m_settings.m_devSampleRate ≠ 2000000 ∧
    (applySettings refShared retOk openDevice0
      { baseSettings with m_devSampleRate := 2000000, m_log2Interp := 2 }
        false).dev.m_sampleSourceFifo =
      max (refShared.scaleBySeconds (Int.tdiv 2000000 (2 ^ 2)))
        refShared.m_sampleFifoMinSize :=
  ⟨by decide,
    (fifo_capacity_on_resize refShared retOk openDevice0
      { baseSettings with m_devSampleRate := 2000000, m_log2Interp := 2 } false
      (Or.inl (by decide))).2.2.1 (by decide)⟩

/-! ## C10: the order of the hardware calls -/

theorem ite_singleton_sublist {α : Type} (c : Prop) [Decidable c] (a : α) :
    (if c then [a] else []).Sublist [a] := by
  by_cases h : c <;> simp [h]

theorem plannedSteps_sublist (d : Bladerf1Output) (s : BladeRF1OutputSettings) (f : Bool) :
    (plannedSteps d s f).Sublist (fixedOrder s) := by
  have hfix : fixedOrder s =
      [Event.hw (HwCall.set_sample_rate s.m_devSampleRate)] ++
      [Event.setLog2Interpolation s.m_log2Interp] ++
      [Event.hw (HwCall.set_txvga1 s.m_vga1)] ++
      [Event.hw (HwCall.set_txvga2 s.m_vga2)] ++
      [Event.hw (HwCall.expansion_attach s.m_xb200)] ++
      [Event.hw (HwCall.xb200_set_path s.m_xb200Path)] ++
      [Event.hw (HwCall.xb200_set_filterbank s.m_xb200Filter)] ++
      [Event.hw (HwCall.set_bandwidth s.m_bandwidth)] ++
      [Event.hw (HwCall.set_frequency s.m_centerFrequency)] := rfl
  rw [hfix]
  unfold plannedSteps
  exact ((((((((ite_singleton_sublist _ _).append (ite_singleton_sublist _ _)).append
    (ite_singleton_sublist _ _)).append (ite_singleton_sublist _ _)).append
    (ite_singleton_sublist _ _)).append (ite_singleton_sublist _ _)).append
    (ite_singleton_sublist _ _)).append (ite_singleton_sublist _ _)).append
    (ite_singleton_sublist _ _)

theorem hwCalls_eq_applySteps (tr : List Event) :
    hwCalls tr = (applySteps tr).filterMap Event.call := by
  induction tr with
  | nil => rfl
  | cons e es ih =>
    cases e <;>
      simp_all [hwCalls, applySteps, Event.call, Event.isApplyStep, List.filter_cons,
        List.filterMap_cons]

/-- C10: the apply steps of a call (hardware calls and the factor set on the worker) form
a subsequence of the fixed order sample rate, interpolation factor, first gain, second
gain, expansion board, path, filter, bandwidth, center frequency; so do its hardware
calls alone; and both sequences are the same under any two behaviours of the hardware,
so a failed write never keeps a later one from being attempted. -/
theorem hardware_calls_in_fixed_order (k : DeviceBladeRF1Shared) (ret1 ret2 : HwCall → Int)
    (d : Bladerf1Output) (settings : BladeRF1OutputSettings) (force : Bool) :
    (applySteps (applySettings k ret1 d settings force).trace).Sublist
      (fixedOrder settings) ∧
    (hwCalls (applySettings k ret1 d settings force).trace).Sublist
      (hwCalls (fixedOrder settings)) ∧
    applySteps (applySettings k ret1 d settings force).trace =
      applySteps (applySettings k ret2 d settings force).trace ∧
    hwCalls (applySettings k ret1 d settings force).trace =
      hwCalls (applySettings k ret2 d settings force).trace := by
  refine ⟨?_, ?_, ?_, ?_⟩
  · rw [applySteps_trace]
    exact plannedSteps_sublist d settings force
  · rw [hwCalls_eq_applySteps, applySteps_trace]
    exact (plannedSteps_sublist d settings force).filterMap Event.call
  · rw [applySteps_trace, applySteps_trace]
  · rw [hwCalls_eq_applySteps, hwCalls_eq_applySteps, applySteps_trace, applySteps_trace]

/-! ## C11: the expansion board and the running buddy -/

theorem mem_trace_of_planned (k : DeviceBladeRF1Shared) (ret : HwCall → Int)
    (d : Bladerf1Output) (s : BladeRF1OutputSettings) (f : Bool) (e : Event) :
    e ∈ plannedSteps d s f ↔ e ∈ (applySettings k ret d s f).trace ∧ e.isApplyStep = true := by
  rw [← applySteps_trace k ret d s f]
  simp [applySteps, List.mem_filter]

/-- C11: while a source buddy is registered and the engine of the buddy the code consults
(the first one) is running, no expansion-board attach or detach is issued and the shared
parameters, `m_xb200Attached` among them, keep their value, whatever the requested flag
and force; when no buddy is registered or that buddy is not running, the flag differs or
force is set, and the handle is open, the attach (for a true flag) or detach (for a false
one) is issued and `m_xb200Attached` becomes the requested flag. -/
theorem xb200_gated_by_running_buddy (k : DeviceBladeRF1Shared) (ret : HwCall → Int)
    (d : Bladerf1Output) (settings : BladeRF1OutputSettings) (force : Bool) :
    (∀ (buddy : DeviceSourceAPI) (rest : List DeviceSourceAPI),
      d.sourceBuddies = buddy :: rest → buddy.engineState = EngineState.StRunning →
      (∀ b : Bool, Event.hw (HwCall.expansion_attach b) ∉
        (applySettings k ret d settings force).trace) ∧
      (applySettings k ret d settings force).dev.m_sharedParams = d.m_sharedParams) ∧
    ((d.sourceBuddies = [] ∨ ∃ (buddy : DeviceSourceAPI) (rest : List DeviceSourceAPI),
        d.sourceBuddies = buddy :: rest ∧ buddy.engineState ≠ EngineState.StRunning) →
      (d.m_settings.m_xb200 ≠ settings.m_xb200 ∨ force = true) → d.m_dev ≠ 0 →
      Event.hw (HwCall.expansion_attach settings.m_xb200) ∈
        (applySettings k ret d settings force).trace ∧
      (applySettings k ret d settings force).dev.m_sharedParams.m_xb200Attached =
        settings.m_xb200) := by
  constructor
  · intro buddy rest hb hrun
    have hx : xb200Applies d settings force = false := by
      simp [xb200Applies, changeSettings, hb, hrun]
    refine ⟨?_, ?_⟩
    · intro b hmem
      have hp : Event.hw (HwCall.expansion_attach b) ∈ plannedSteps d settings force :=
        (mem_trace_of_planned k ret d settings force _).mpr ⟨hmem, rfl⟩
      simp [plannedSteps, hx, List.mem_append] at hp
    · simp [applySettings, hx]
  · intro hb hdiff hdev
    have hc : changeSettings d = true := by
      rcases hb with h | ⟨buddy, rest, h, hne⟩
      · simp [changeSettings, h]
      · simp [changeSettings, h, hne]
    have hx : xb200Applies d settings force = true := by
      rcases hdiff with h | h <;> simp [xb200Applies, changed, hc, hdev, h]
    refine ⟨?_, ?_⟩
    · have hp : Event.hw (HwCall.expansion_attach settings.m_xb200) ∈
          plannedSteps d settings force := by
        simp [plannedSteps, hx, List.mem_append]
      exact ((mem_trace_of_planned k ret d settings force _).mp hp).1
    · simp [applySettings, hx]

/-- Witness for C11: beside a running buddy a forced request for the expansion board
leaves the shared parameters alone; without a buddy the board is attached. -/
theorem xb200_gated_by_running_buddy_witness :
    deviceBesideRunningBuddy.sourceBuddies = [buddyRunning] ∧
    (applySettings refShared retOk deviceBesideRunningBuddy
      { baseSettings with m_xb200 := true } true).dev.m_sharedParams =
        deviceBesideRunningBuddy.m_sharedParams ∧
    openDevice0.sourceBuddies = [] ∧
    (applySettings refShared retOk openDevice0
      { baseSettings with m_xb200 := true } false).dev.m_sharedParams.m_xb200Attached =
        true :=
  ⟨rfl,
    ((xb200_gated_by_running_buddy refShared retOk deviceBesideRunningBuddy
      { baseSettings with m_xb200 := true } true).1 buddyRunning [] rfl rfl).2,
    rfl,
    ((xb200_gated_by_running_buddy refShared retOk openDevice0
      { baseSettings with m_xb200 := true } false).2 (Or.inl rfl) (Or.inl (by decide))
        (by decide)).2⟩

/-! ## C12: opening beside a buddy without a handle -/

/-- C12: `openDevice` is entered with the device's own handle null: its only call is in
the constructor (line 48), after the initializer `m_dev(0)` (line 42).  In every such
state in which a source buddy is registered and the shared parameters of that buddy hold
a null handle, openDevice returns false, makes no SDK call at all (so no open, no stream
configuration and no enable call), and the shared parameters, the handle reference and
the buddy list are the same after the call as before it. -/
theorem openDevice_null_buddy_handle (ret : HwCall → Int) (opened : Bool × Nat)
    (d : Bladerf1Output) (buddy : DeviceSourceAPI) (rest : List DeviceSourceAPI)
    (p : DeviceBladeRF1Params) (hown : d.m_dev = 0) (hb : d.sourceBuddies = buddy :: rest)
    (hp : buddy.buddySharedPtr = some p) (hnull : p.m_dev = 0) :
    (openDevice ret opened d).result = false ∧
    hwCalls (openDevice ret opened d).trace = [] ∧
    HwCall.open_bladerf ∉ hwCalls (openDevice ret opened d).trace ∧
    HwCall.sync_config ∉ hwCalls (openDevice ret opened d).trace ∧
    (∀ enable : Bool,
      HwCall.enable_module enable ∉ hwCalls (openDevice ret opened d).trace) ∧
    (openDevice ret opened d).dev.m_sharedParams = d.m_sharedParams ∧
    (openDevice ret opened d).dev.m_dev = d.m_dev ∧
    (openDevice ret opened d).dev.sourceBuddies = d.sourceBuddies := by
  simp [openDevice, hown, hb, hp, hnull, hwCalls, Event.call]

/-- Witness for C12: a device without a handle beside a buddy without a handle. -/
theorem openDevice_null_buddy_handle_witness :
    closedDeviceBesideNullBuddy.m_dev = 0 ∧
    closedDeviceBesideNullBuddy.sourceBuddies = [buddyNoHandle] ∧
    buddyNoHandle.buddySharedPtr = some { m_dev := 0, m_xb200Attached := false } ∧
    (openDevice retOk (true, 5) closedDeviceBesideNullBuddy).result = false ∧
    hwCalls (openDevice retOk (true, 5) closedDeviceBesideNullBuddy).trace = [] ∧
    (openDevice retOk (true, 5) closedDeviceBesideNullBuddy).dev.m_sharedParams =
      closedDeviceBesideNullBuddy.m_sharedParams :=
  ⟨rfl, rfl, rfl,
    (openDevice_null_buddy_handle retOk (true, 5) closedDeviceBesideNullBuddy buddyNoHandle []
      { m_dev := 0, m_xb200Attached := false } rfl rfl rfl rfl).1,
    (openDevice_null_buddy_handle retOk (true, 5) closedDeviceBesideNullBuddy buddyNoHandle []
      { m_dev := 0, m_xb200Attached := false } rfl rfl rfl rfl).2.1,
    (openDevice_null_buddy_handle retOk (true, 5) closedDeviceBesideNullBuddy buddyNoHandle []
      { m_dev := 0, m_xb200Attached := false } rfl rfl rfl rfl).2.2.2.2.2.1⟩

/-! ## C13: closing the device -/

/-- C13: closeDevice on a null handle makes no call and returns the object unchanged, so
closing twice in a row is closing once followed by nothing; on an open handle it first
disables the TX module, issues `bladerf_close` exactly when no source buddy is
registered, and leaves both its handle reference and the handle of its shared parameters
null. -/
theorem closeDevice_idempotent_and_buddy_aware (ret ret2 : HwCall → Int)
    (d : Bladerf1Output) :
    (d.m_dev = 0 → closeDevice ret d = { dev := d, trace := [] }) ∧
    closeDevice ret2 (closeDevice ret d).dev =
      { dev := (closeDevice ret d).dev, trace := [] } ∧
    (d.m_dev ≠ 0 →
      (closeDevice ret d).trace.head? = some (Event.hw (HwCall.enable_module false)) ∧
      hwCalls (closeDevice ret d).trace =
        (if d.sourceBuddies = [] then [HwCall.enable_module false, HwCall.close]
          else [HwCall.enable_module false]) ∧
      (HwCall.close ∈ hwCalls (closeDevice ret d).trace ↔ d.sourceBuddies = []) ∧
      (closeDevice ret d).dev.m_dev = 0 ∧
      (closeDevice ret d).dev.m_sharedParams.m_dev = 0) := by
  refine ⟨?_, ?_, ?_⟩
  · intro h
    simp [closeDevice, h]
  · by_cases h : d.m_dev = 0 <;> simp [closeDevice, h]
  · intro h
    by_cases hr : ret (HwCall.enable_module false) < 0 <;>
      by_cases hbud : d.sourceBuddies = [] <;>
        simp [closeDevice, h, hr, hbud, hwCalls, Event.call, List.filterMap_cons]

/-- Witness for C13: an open device without a buddy is disabled and closed; beside a
buddy it is disabled only. -/
theorem closeDevice_idempotent_and_buddy_aware_witness :
    openDevice0.m_dev ≠ 0 ∧
    hwCalls (closeDevice retOk openDevice0).trace =
      [HwCall.enable_module false, HwCall.close] ∧
    deviceBesideRunningBuddy.m_dev ≠ 0 ∧
    hwCalls (closeDevice retOk deviceBesideRunningBuddy).trace =
      [HwCall.enable_module false] :=
  ⟨by decide,
    ((closeDevice_idempotent_and_buddy_aware retOk retOk openDevice0).2.2 (by decide)).2.1,
    by decide,
    ((closeDevice_idempotent_and_buddy_aware retOk retOk deviceBesideRunningBuddy).2.2
      (by decide)).2.1⟩

/-! ## C14: deserializing rejected bytes -/

/-- C14: when the settings deserializer rejects the bytes, `deserialize` returns false,
the confirmed settings are the default snapshot, exactly one Configure message with the
default snapshot and force set is appended to the input queue, and the same message is
appended to the GUI queue when there is one. -/
theorem deserialize_rejected_resets_and_configures (c : SettingsCodec) (d : Bladerf1Output)
    (data : List Nat) (hrej : (c.deserialize d.m_settings data).1 = false) :
    (deserialize c d data).1 = false ∧
    (deserialize c d data).2.m_settings = c.defaults ∧
    (deserialize c d data).2.m_inputMessageQueue =
      d.m_inputMessageQueue ++ [Message.MsgConfigureBladerf1 c.defaults true] ∧
    (deserialize c d data).2.m_guiMessageQueue =
      d.m_guiMessageQueue.map fun q => q ++ [Message.MsgConfigureBladerf1 c.defaults true] := by
  simp [deserialize, hrej]

/-- Witness for C14: two bytes the example serializer rejects. -/
theorem deserialize_rejected_resets_and_configures_witness :
    (refCodec.deserialize openDevice0.m_settings [9, 9]).1 = false ∧
    (deserialize refCodec openDevice0 [9, 9]).1 = false ∧
    (deserialize refCodec openDevice0 [9, 9]).2.m_settings = refCodec.defaults ∧
    (deserialize refCodec openDevice0 [9, 9]).2.m_inputMessageQueue =
      openDevice0.m_inputMessageQueue ++ [Message.MsgConfigureBladerf1 refCodec.defaults true] :=
  ⟨rfl,
    (deserialize_rejected_resets_and_configures refCodec openDevice0 [9, 9] rfl).1,
    (deserialize_rejected_resets_and_configures refCodec openDevice0 [9, 9] rfl).2.1,
    (deserialize_rejected_resets_and_configures refCodec openDevice0 [9, 9] rfl).2.2.1⟩

/-! ## C15: the remote-sync patch -/

theorem emittedPatches_of_pass (l : List Event) (h : ∀ e ∈ l, e.isPassEvent = true) :
    emittedPatches l = [] := by
  induction l with
  | nil => rfl
  | cons e es ih =>
    have hes : ∀ x ∈ es, x.isPassEvent = true := fun x hx => h x (List.mem_cons_of_mem _ hx)
    have he := h e (List.mem_cons_self _ _)
    have ih1 := ih hes
    unfold emittedPatches at ih1 ⊢
    cases e <;> first
      | (simp [Event.patch, List.filterMap_cons, ih1]; done)
      | simp [Event.isPassEvent] at he

/-- The requests of a whole call are those of its remote-sync step. -/
theorem emittedPatches_trace (k : DeviceBladeRF1Shared) (ret : HwCall → Int)
    (d : Bladerf1Output) (s : BladeRF1OutputSettings) (f : Bool) :
    emittedPatches (applySettings k ret d s f).trace = emittedPatches (stepReverse d s f) := by
  have h1 : emittedPatches (stepSuspend d s f) = [] := by
    unfold stepSuspend
    split_ifs <;> rfl
  have h2 : emittedPatches (stepFifo k d s f) = [] := by
    unfold stepFifo
    split_ifs <;> rfl
  have h3 : emittedPatches (stepRestart d s f) = [] := by
    unfold stepRestart
    split_ifs <;> rfl
  have h4 : emittedPatches (stepNotify d s f) = [] := by
    unfold stepNotify
    split_ifs <;> rfl
  have h5 := emittedPatches_of_pass _ (hardwarePass_pass ret d s f)
  unfold emittedPatches at h1 h2 h3 h4 h5 ⊢
  simp only [applySettings, List.filterMap_append, h1, h2, h3, h4, h5, List.nil_append,
    List.append_nil]

theorem isSome_ite_some {α : Type} (c : Bool) (v : α) :
    (if c = true then some v else none).isSome = c := by
  cases c <;> rfl

/-- C15: applySettings sends no remote-sync request when the requested snapshot has
remote sync disabled and exactly one, a PATCH to the requested address, port and device
index, when it has it enabled; that request is sent in full mode exactly when force is
set, or remote sync is disabled in the confirmed snapshot, or the address, the port or
the device index differs; in full mode the body carries all nine device parameters,
otherwise it carries exactly the parameters whose names are in `reverseAPIKeys`. -/
theorem reverse_patch_scope (k : DeviceBladeRF1Shared) (ret : HwCall → Int)
    (d : Bladerf1Output) (settings : BladeRF1OutputSettings) (force : Bool) :
    (settings.m_useReverseAPI = false →
      emittedPatches (applySettings k ret d settings force).trace = []) ∧
    (settings.m_useReverseAPI = true →
      ∃ full : Bool,
        (full = true ↔
          (force = true ∨ d.m_settings.m_useReverseAPI = false ∨
            d.m_settings.m_reverseAPIAddress ≠ settings.m_reverseAPIAddress ∨
            d.m_settings.m_reverseAPIPort ≠ settings.m_reverseAPIPort ∨
            d.m_settings.m_reverseAPIDeviceIndex ≠ settings.m_reverseAPIDeviceIndex)) ∧
        emittedPatches (applySettings k ret d settings force).trace =
          [webapiReverseSendSettings (applySettings k ret d settings force).reverseAPIKeys
            settings full] ∧
        (webapiReverseSendSettings (applySettings k ret d settings force).reverseAPIKeys
          settings full).verb = "PATCH" ∧
        (webapiReverseSendSettings (applySettings k ret d settings force).reverseAPIKeys
          settings full).address = settings.m_reverseAPIAddress ∧
        (webapiReverseSendSettings (applySettings k ret d settings force).reverseAPIKeys
          settings full).port = settings.m_reverseAPIPort ∧
        (webapiReverseSendSettings (applySettings k ret d settings force).reverseAPIKeys
          settings full).deviceIndex = settings.m_reverseAPIDeviceIndex ∧
        (full = true →
          (webapiReverseSendSettings (applySettings k ret d settings force).reverseAPIKeys
            settings full).body = fullBody settings ∧
          (webapiReverseSendSettings (applySettings k ret d settings force).reverseAPIKeys
            settings full).body.carried = deviceParams) ∧
        (full = false → ∀ p : Param,
          (p ∈ (webapiReverseSendSettings
              (applySettings k ret d settings force).reverseAPIKeys settings
              full).body.carried ↔
            ∃ name : String, p.key = some name ∧
              name ∈ (applySettings k ret d settings force).reverseAPIKeys))) := by
  constructor
  · intro hoff
    rw [emittedPatches_trace]
    simp [stepReverse, hoff, emittedPatches]
  · intro hon
    refine ⟨fullUpdate d.m_settings settings || force, ?_, ?_, rfl, rfl, rfl, rfl, ?_, ?_⟩
    · simp only [fullUpdate, hon, Bool.or_eq_true, Bool.and_eq_true, decide_eq_true_eq]
      cases hcur : d.m_settings.m_useReverseAPI <;> simp
      tauto
    · rw [emittedPatches_trace]
      simp [stepReverse, hon, emittedPatches, Event.patch, applySettings]
    · intro hfull
      rw [hfull]
      constructor
      · simp [webapiReverseSendSettings, fullBody]
      · simp [webapiReverseSendSettings, SWGBladeRF1OutputSettings.carried, deviceParams]
    · intro hfull p
      rw [hfull]
      cases p <;>
        simp [webapiReverseSendSettings, SWGBladeRF1OutputSettings.carried, Param.key,
          isSome_ite_some, List.mem_append, mem_ite_singleton]

/-- Witness for C15: remote sync already enabled, same routing, only the first gain
changes: the one request carries the first gain alone. -/
theorem reverse_patch_scope_witness :
    ({ baseSettings with m_useReverseAPI := true, m_vga1 := 4 } :
      BladeRF1OutputSettings).m_useReverseAPI = true ∧
    ∃ full : Bool, full = false ∧
      emittedPatches (applySettings refShared retOk
        { openDevice0 with m_settings := { baseSettings with m_useReverseAPI := true } }
        { baseSettings with m_useReverseAPI := true, m_vga1 := 4 } false).trace =
        [webapiReverseSendSettings (applySettings refShared retOk
          { openDevice0 with m_settings := { baseSettings with m_useReverseAPI := true } }
          { baseSettings with m_useReverseAPI := true, m_vga1 := 4 } false).reverseAPIKeys
          { baseSettings with m_useReverseAPI := true, m_vga1 := 4 } full] :=
  ⟨rfl,
    match (reverse_patch_scope refShared retOk
      { openDevice0 with m_settings := { baseSettings with m_useReverseAPI := true } }
      { baseSettings with m_useReverseAPI := true, m_vga1 := 4 } false).2 rfl with
    | ⟨true, hiff, _, _⟩ => absurd (hiff.mp rfl) (by decide)
    | ⟨false, _, h, _⟩ => ⟨false, rfl, h⟩⟩

/-! ## C16: the factor on the worker follows the confirmed snapshot -/

/-- `applySettings` keeps the worker's factor equal to the confirmed one. -/
theorem applySettings_keeps_factor (k : DeviceBladeRF1Shared) (ret : HwCall → Int)
    (d : Bladerf1Output) (settings : BladeRF1OutputSettings) (force : Bool)
    (hinv : ∀ t, d.m_bladerfThread = some t → t.m_log2Interp = d.m_settings.m_log2Interp)
    (t : Bladerf1OutputThread)
    (ht : (applySettings k ret d settings force).dev.m_bladerfThread = some t) :
    t.m_log2Interp = (applySettings k ret d settings force).dev.m_settings.m_log2Interp := by
  cases hthr : d.m_bladerfThread with
  | none => simp [applySettings, threadAfter, hthr] at ht
  | some t0 =>
    have h0 := hinv t0 hthr
    simp only [applySettings, threadAfter, hthr, Option.some.injEq] at ht
    subst ht
    by_cases hc : changed d.m_settings.m_log2Interp settings.m_log2Interp force = true
    · split_ifs <;>
        simp [applySettings, Bladerf1OutputThread.startWork, Bladerf1OutputThread.stopWork,
          Bladerf1OutputThread.setLog2Interpolation]
    · have hsame : d.m_settings.m_log2Interp = settings.m_log2Interp := by
        by_contra hne
        exact hc (by simp [changed, hne])
      split_ifs <;>
        simp [applySettings, Bladerf1OutputThread.startWork, Bladerf1OutputThread.stopWork,
          h0, hsame]

/-- `start` leaves the worker, if any, with the confirmed factor. -/
theorem start_establishes_factor (k : DeviceBladeRF1Shared) (ret : HwCall → Int)
    (d : Bladerf1Output)
    (hinv : ∀ t, d.m_bladerfThread = some t → t.m_log2Interp = d.m_settings.m_log2Interp)
    (t : Bladerf1OutputThread) (ht : (start k ret d).dev.m_bladerfThread = some t) :
    t.m_log2Interp = (start k ret d).dev.m_settings.m_log2Interp := by
  by_cases hdev : d.m_dev = 0
  · simp only [start, hdev, if_true] at ht ⊢
    exact hinv t ht
  · simp only [start, hdev, if_false] at ht ⊢
    simp only [Option.map_eq_some'] at ht
    obtain ⟨t1, _, rfl⟩ := ht
    simp [Bladerf1OutputThread.startWork, Bladerf1OutputThread.setLog2Interpolation]

/-- C16: in every state reachable from construction by `start`, `stop` and
`applySettings`, forced or not and whatever the hardware returns, a worker thread that
exists has the interpolation factor of the confirmed snapshot. -/
theorem worker_factor_matches_confirmed (k : DeviceBladeRF1Shared) (d : Bladerf1Output)
    (hreach : Reachable k d) (t : Bladerf1OutputThread) (ht : d.m_bladerfThread = some t) :
    t.m_log2Interp = d.m_settings.m_log2Interp := by
  induction hreach generalizing t with
  | constructed d0 h0 => simp [h0] at ht
  | start ret d0 _ ih => exact start_establishes_factor k ret d0 ih t ht
  | stop d0 _ _ =>
    cases hthr : d0.m_bladerfThread <;> simp [stop, hthr] at ht
  | applySettings ret d0 settings force _ ih =>
    exact applySettings_keeps_factor k ret d0 settings force ih t ht

/-- Witness for C16: construct, start, then request log2 factor 2 without force: the
running worker has factor 2. -/
theorem worker_factor_matches_confirmed_witness :
    Reachable refShared
      (applySettings refShared retOk (start refShared retOk openDevice0).dev
        { baseSettings with m_log2Interp := 2 } false).dev ∧
    (applySettings refShared retOk (start refShared retOk openDevice0).dev
      { baseSettings with m_log2Interp := 2 } false).dev.m_bladerfThread =
        some { m_running := true, m_log2Interp := 2 } ∧
    (2 : Nat) = (applySettings refShared retOk (start refShared retOk openDevice0).dev
      { baseSettings with m_log2Interp := 2 } false).dev.m_settings.m_log2Interp :=
  ⟨Reachable.applySettings retOk _ _ false
      (Reachable.start retOk openDevice0 (Reachable.constructed openDevice0 rfl)),
    by decide,
    worker_factor_matches_confirmed refShared _
      (Reachable.applySettings retOk _ { baseSettings with m_log2Interp := 2 } false
        (Reachable.start retOk openDevice0 (Reachable.constructed openDevice0 rfl)))
      { m_running := true, m_log2Interp := 2 } (by decide)⟩

end Bladerf1
